import Mathlib

/-! # RetroShare GXS channels: a verification development

Shallow embedding of `libretroshare/src/retroshare/rsgxschannels.h`.

The header declares two serialisable records (`RsGxsChannelGroup`,
`RsGxsChannelPost`) with their `serial_process` bodies, and the pure virtual
service interface `RsGxsChannels`.  The records and `serial_process` are
translated from the header.  The types they mention that live in other headers
(`RsGroupMetaData`, `RsMsgMetaData`, `RsGxsImage`, `RsGxsFile`, the serialise
job and `RsTypeSerializer`) are modelled or taken as parameters.  The behaviour
behind the pure virtual methods is not in the header; it is modelled from the
specification and every such definition says so.
-/

namespace RetroShare

/-! ## Identifier and scalar types -/

/-- Group identifier; `0` is the default constructed (empty) identifier. -/
abbrev RsGxsGroupId := Nat
/-- Message identifier; `0` is the default constructed (empty) identifier. -/
abbrev RsGxsMessageId := Nat
/-- Identity identifier; `0` is the default constructed (empty) identity. -/
abbrev RsGxsId := Nat
/-- Circle identifier; `0` is the default constructed (empty) circle id. -/
abbrev RsGxsCircleId := Nat
/-- File hash. -/
abbrev RsFileHash := Nat
/-- Time in seconds. -/
abbrev rstime_t := Nat

/-- Range of `uint32_t`. -/
def UINT32_RANGE : Nat := 2 ^ 32
/-- Range of `uint64_t`. -/
def UINT64_RANGE : Nat := 2 ^ 64

/-- Modelled from the spec: the visibility rule `circleType`, declared in
`retroshare/rsgxscircles.h`, with the three values the specification names. -/
inductive RsGxsCircleType where
  | PUBLIC
  | EXTERNAL
  | NODES_GROUP
  deriving DecidableEq, Repr

/-- Modelled from the spec: the image record of `retroshare/rsgxscommon.h`,
kept as its byte content. -/
structure RsGxsImage where
  mData : List Nat := []
  deriving DecidableEq, Repr

/-- Modelled from the spec: the file reference `{hash, name, size}` of
`retroshare/rsgxscommon.h`. -/
structure RsGxsFile where
  mName : String := ""
  mHash : RsFileHash := 0
  mSize : Nat := 0
  deriving DecidableEq, Repr

/-- Modelled from the spec: the group meta data of
`retroshare/rsgxsifacetypes.h`, with the members the specification names. -/
structure RsGroupMetaData where
  mGroupId : RsGxsGroupId := 0
  mGroupName : String := ""
  mAuthorId : RsGxsId := 0
  mCircleType : RsGxsCircleType := RsGxsCircleType.PUBLIC
  mCircleId : RsGxsCircleId := 0
  mSubscribed : Bool := false
  deriving DecidableEq, Repr

/-- Modelled from the spec: the message meta data of
`retroshare/rsgxsifacetypes.h`, with the members the specification names. -/
structure RsMsgMetaData where
  mGroupId : RsGxsGroupId := 0
  mMsgId : RsGxsMessageId := 0
  mThreadId : RsGxsMessageId := 0
  mParentId : RsGxsMessageId := 0
  mOrigMsgId : RsGxsMessageId := 0
  mAuthorId : RsGxsId := 0
  mMsgName : String := ""
  deriving DecidableEq, Repr

/-! ## The two records of the header -/

/-- The record `RsGxsChannelGroup` with its constructor
`RsGxsChannelGroup() : mAutoDownload(false)`. -/
structure RsGxsChannelGroup where
  mMeta : RsGroupMetaData := {}
  mDescription : String := ""
  mImage : RsGxsImage := {}
  mAutoDownload : Bool := false
  deriving DecidableEq, Repr

/-- The record `RsGxsChannelPost` with its constructor
`RsGxsChannelPost() : mCount(0), mSize(0)`.  `mOlderVersions` is a
`std::set<RsGxsMessageId>`; `mCount` is a `uint32_t` and `mSize` a `uint64_t`,
all three public members. -/
structure RsGxsChannelPost where
  mMeta : RsMsgMetaData := {}
  mOlderVersions : Finset RsGxsMessageId := ∅
  mMsg : String := ""
  mFiles : List RsGxsFile := []
  mCount : Nat := 0
  mSize : Nat := 0
  mThumbnail : RsGxsImage := {}
  deriving DecidableEq

/-! ## Serialisation -/

/-- Modelled from the spec: the serialise jobs of
`RsGenericSerializer::SerializeJob` (`serialiser/rsserializer.h`). -/
inductive SerializeJob where
  | SIZE_ESTIMATE
  | SERIALIZE
  | DESERIALIZE
  | PRINT
  | TO_JSON
  | FROM_JSON
  deriving DecidableEq, Repr

/-- The member level serialiser `RsTypeSerializer::serial_process(j, ctx, member,
name)`, one overload per member type used by the header.  It is defined in
`serialiser/rstypeserializer.h` and is a parameter here: each overload maps the
job, the context, the member and its name to the new context and the (possibly
rewritten, when deserialising) member. -/
structure RsTypeSerializer (σ : Type) where
  groupMeta : SerializeJob → σ → RsGroupMetaData → String → σ × RsGroupMetaData
  msgMeta : SerializeJob → σ → RsMsgMetaData → String → σ × RsMsgMetaData
  string : SerializeJob → σ → String → String → σ × String
  image : SerializeJob → σ → RsGxsImage → String → σ × RsGxsImage
  bool : SerializeJob → σ → Bool → String → σ × Bool
  msgIdSet : SerializeJob → σ → Finset RsGxsMessageId → String → σ × Finset RsGxsMessageId
  fileList : SerializeJob → σ → List RsGxsFile → String → σ × List RsGxsFile
  uint32 : SerializeJob → σ → Nat → String → σ × Nat
  uint64 : SerializeJob → σ → Nat → String → σ × Nat

/-- `RsGxsChannelGroup::serial_process`: four `RS_SERIAL_PROCESS(member)` calls,
each expanding to `RsTypeSerializer::serial_process(j, ctx, member, "member")`. -/
def RsGxsChannelGroup.serial_process {σ : Type} (ts : RsTypeSerializer σ)
    (j : SerializeJob) (ctx : σ) (g : RsGxsChannelGroup) : σ × RsGxsChannelGroup :=
  let r1 := ts.groupMeta j ctx g.mMeta "mMeta"
  let r2 := ts.string j r1.1 g.mDescription "mDescription"
  let r3 := ts.image j r2.1 g.mImage "mImage"
  let r4 := ts.bool j r3.1 g.mAutoDownload "mAutoDownload"
  (r4.1, { mMeta := r1.2, mDescription := r2.2, mImage := r3.2, mAutoDownload := r4.2 })

/-- `RsGxsChannelPost::serial_process`: seven `RS_SERIAL_PROCESS(member)` calls. -/
def RsGxsChannelPost.serial_process {σ : Type} (ts : RsTypeSerializer σ)
    (j : SerializeJob) (ctx : σ) (p : RsGxsChannelPost) : σ × RsGxsChannelPost :=
  let r1 := ts.msgMeta j ctx p.mMeta "mMeta"
  let r2 := ts.msgIdSet j r1.1 p.mOlderVersions "mOlderVersions"
  let r3 := ts.string j r2.1 p.mMsg "mMsg"
  let r4 := ts.fileList j r3.1 p.mFiles "mFiles"
  let r5 := ts.uint32 j r4.1 p.mCount "mCount"
  let r6 := ts.uint64 j r5.1 p.mSize "mSize"
  let r7 := ts.image j r6.1 p.mThumbnail "mThumbnail"
  (r7.1, { mMeta := r1.2, mOlderVersions := r2.2, mMsg := r3.2, mFiles := r4.2,
           mCount := r5.2, mSize := r6.2, mThumbnail := r7.2 })

/-- The type of the member handed to a member level serialiser call. -/
inductive MemberKind where
  | groupMeta
  | msgMeta
  | string
  | image
  | bool
  | msgIdSet
  | fileList
  | uint32
  | uint64
  deriving DecidableEq, Repr

/-- One recorded member level serialiser call: the member name, the overload
selected, and the job it was called with. -/
structure Visit where
  name : String
  kind : MemberKind
  job : SerializeJob
  deriving DecidableEq, Repr

/-- Instrumented member serialiser: behaves as `ts` and appends every call to a
log carried next to the context. -/
def RsTypeSerializer.traced {σ : Type} (ts : RsTypeSerializer σ) :
    RsTypeSerializer (σ × List Visit) where
  groupMeta j c v n :=
    ((( ts.groupMeta j c.1 v n).1, c.2 ++ [⟨n, MemberKind.groupMeta, j⟩]), (ts.groupMeta j c.1 v n).2)
  msgMeta j c v n :=
    (((ts.msgMeta j c.1 v n).1, c.2 ++ [⟨n, MemberKind.msgMeta, j⟩]), (ts.msgMeta j c.1 v n).2)
  string j c v n :=
    (((ts.string j c.1 v n).1, c.2 ++ [⟨n, MemberKind.string, j⟩]), (ts.string j c.1 v n).2)
  image j c v n :=
    (((ts.image j c.1 v n).1, c.2 ++ [⟨n, MemberKind.image, j⟩]), (ts.image j c.1 v n).2)
  bool j c v n :=
    (((ts.bool j c.1 v n).1, c.2 ++ [⟨n, MemberKind.bool, j⟩]), (ts.bool j c.1 v n).2)
  msgIdSet j c v n :=
    (((ts.msgIdSet j c.1 v n).1, c.2 ++ [⟨n, MemberKind.msgIdSet, j⟩]), (ts.msgIdSet j c.1 v n).2)
  fileList j c v n :=
    (((ts.fileList j c.1 v n).1, c.2 ++ [⟨n, MemberKind.fileList, j⟩]), (ts.fileList j c.1 v n).2)
  uint32 j c v n :=
    (((ts.uint32 j c.1 v n).1, c.2 ++ [⟨n, MemberKind.uint32, j⟩]), (ts.uint32 j c.1 v n).2)
  uint64 j c v n :=
    (((ts.uint64 j c.1 v n).1, c.2 ++ [⟨n, MemberKind.uint64, j⟩]), (ts.uint64 j c.1 v n).2)

/-- The aggregates of a post agree with its attached files: `mCount` is the
number of files and `mSize` the sum of their sizes. -/
def RsGxsChannelPost.aggregatesAgree (p : RsGxsChannelPost) : Prop :=
  p.mCount = p.mFiles.length ∧ p.mSize = (p.mFiles.map RsGxsFile.mSize).sum

instance (p : RsGxsChannelPost) : Decidable p.aggregatesAgree := by
  unfold RsGxsChannelPost.aggregatesAgree; infer_instance

/-- A post obtained by default construction followed by an assignment to the
public member `mFiles`. -/
def postWithOneFile : RsGxsChannelPost :=
  { ({} : RsGxsChannelPost) with mFiles := [{ mName := "a.bin", mHash := 7, mSize := 1024 }] }


/-! ## The content graph store and the synchronous facade

The header declares the facade as pure virtual methods; their bodies are not
part of the sources.  Everything in this section is modelled from the
specification (sections 3, 4.1, 6 and 7). -/

/-- Modelled from the spec: the comment record of `retroshare/rsgxscommon.h`:
`mMeta.mThreadId` is the post discussed, `mMeta.mParentId` the thread itself or
another comment. -/
structure RsGxsComment where
  mMeta : RsMsgMetaData := {}
  mComment : String := ""
  deriving DecidableEq, Repr

/-- Modelled from the spec: the vote value `{UP, DOWN}`. -/
inductive RsGxsVoteType where
  | DOWN
  | UP
  deriving DecidableEq, Repr

/-- Modelled from the spec: the vote record of `retroshare/rsgxscommon.h`:
`mMeta.mGroupId` is the channel, `mMeta.mThreadId` the post, `mMeta.mParentId`
the voted comment. -/
structure RsGxsVote where
  mMeta : RsMsgMetaData := {}
  mVoteType : RsGxsVoteType := RsGxsVoteType.UP
  deriving DecidableEq, Repr

/-- Modelled from the spec: a channel of the local view together with the keys
the local node holds for it. -/
structure ChannelEntry where
  group : RsGxsChannelGroup
  adminKey : Bool
  publishKey : Bool
  deriving DecidableEq

/-- Modelled from the spec: the Content Graph Store, channels with their posts,
comments and votes. -/
structure ContentStore where
  channels : List ChannelEntry := []
  posts : List RsGxsChannelPost := []
  comments : List RsGxsComment := []
  votes : List RsGxsVote := []
  deriving DecidableEq

/-- Modelled from the spec: the error taxonomy of section 7 that the facade
reports through its boolean result. -/
inductive FacadeError where
  | ValidationError
  | PermissionError
  | NotFoundError
  | StateError
  deriving DecidableEq, Repr

/-- Modelled from the spec: the text written to `errorMessage` for an error. -/
def FacadeError.message : FacadeError → String
  | FacadeError.ValidationError => "validation error: malformed or missing input"
  | FacadeError.PermissionError => "permission error: missing publish or admin rights"
  | FacadeError.NotFoundError => "not found: referenced item does not exist locally"
  | FacadeError.StateError => "state error: operation not allowed in this state"

/-- Modelled from the spec: the external collaborators of section 1 at their
interface boundary: identifier derivation by the signing collaborator, the
identity collaborator, the circle collaborator and the file sharing
collaborator. -/
structure Collaborators where
  groupIdOf : RsGxsChannelGroup → RsGxsGroupId
  postIdOf : RsGxsChannelPost → RsGxsMessageId
  commentIdOf : RsGxsComment → RsGxsMessageId
  voteIdOf : RsGxsVote → RsGxsMessageId
  ownsIdentity : RsGxsId → Bool
  circleDefined : RsGxsCircleId → Bool
  friendGroupDefined : RsGxsCircleId → Bool
  fileHashed : RsFileHash → Bool

/-- Modelled from the spec: lookup of a channel of the local view by id. -/
def ContentStore.findChannel (s : ContentStore) (g : RsGxsGroupId) : Option ChannelEntry :=
  s.channels.find? (fun e => decide (e.group.mMeta.mGroupId = g))

/-- Modelled from the spec: lookup of a post by channel and message id. -/
def ContentStore.findPost (s : ContentStore) (g : RsGxsGroupId) (m : RsGxsMessageId) :
    Option RsGxsChannelPost :=
  s.posts.find? (fun p => decide (p.mMeta.mGroupId = g ∧ p.mMeta.mMsgId = m))

/-- Modelled from the spec: lookup of a comment by message id. -/
def findComment (comments : List RsGxsComment) (m : RsGxsMessageId) : Option RsGxsComment :=
  comments.find? (fun c => decide (c.mMeta.mMsgId = m))

/-- Modelled from the spec: every message identifier assigned in the store. -/
def ContentStore.msgIds (s : ContentStore) : List RsGxsMessageId :=
  s.posts.map (fun p => p.mMeta.mMsgId) ++ s.comments.map (fun c => c.mMeta.mMsgId)
    ++ s.votes.map (fun v => v.mMeta.mMsgId)

/-- Modelled from the spec: the graph size, the number of stored items. -/
def ContentStore.size (s : ContentStore) : Nat :=
  s.channels.length + s.posts.length + s.comments.length + s.votes.length

/-- Modelled from the spec: walk `parentId` links from `cur` until the thread
(the post) is reached, through comments of that thread only; the result is the
number of links followed, `none` when the walk meets an unknown id, a comment of
another thread, or runs out of the step budget. -/
def stepsToThread (comments : List RsGxsComment) (thread : RsGxsMessageId) :
    Nat → RsGxsMessageId → Option Nat
  | 0, cur => if cur = thread then some 0 else none
  | fuel + 1, cur =>
    if cur = thread then some 0
    else match findComment comments cur with
      | none => none
      | some c =>
        if c.mMeta.mThreadId = thread then
          (stepsToThread comments thread fuel c.mMeta.mParentId).map (fun k => k + 1)
        else none

/-- Modelled from the spec: the ids met when following `parentId` links from
`cur` (itself included) towards the thread. -/
def ancestors (comments : List RsGxsComment) (thread : RsGxsMessageId) :
    Nat → RsGxsMessageId → List RsGxsMessageId
  | 0, cur => [cur]
  | fuel + 1, cur =>
    if cur = thread then [cur]
    else match findComment comments cur with
      | none => [cur]
      | some c =>
        if c.mMeta.mThreadId = thread then cur :: ancestors comments thread fuel c.mMeta.mParentId
        else [cur]

/-- Outcome of a blocking facade call that creates an item: the boolean result,
the identifier out-parameter (written on success only), the `errorMessage`
out-parameter (written on failure only) and the store after the call. -/
structure CreateResult where
  success : Bool
  newId : Option Nat
  errorMessage : Option String
  store : ContentStore
  deriving DecidableEq

/-- Modelled from the spec: a rejected call, nothing is committed. -/
def CreateResult.rejected (s : ContentStore) (e : FacadeError) : CreateResult :=
  { success := false, newId := none, errorMessage := some e.message, store := s }

/-- Modelled from the spec: a committed call. -/
def CreateResult.committed (s : ContentStore) (newId : Nat) : CreateResult :=
  { success := true, newId := some newId, errorMessage := none, store := s }

/-! ### Channels -/

/-- Modelled from the spec: the circle rule of section 6. `PUBLIC` requires the
circle id be empty, `EXTERNAL` a defined circle, `NODES_GROUP` a local friend
group. -/
def circleRule (col : Collaborators) (t : RsGxsCircleType) (c : RsGxsCircleId) : Bool :=
  match t with
  | RsGxsCircleType.PUBLIC => decide (c = 0)
  | RsGxsCircleType.EXTERNAL => col.circleDefined c
  | RsGxsCircleType.NODES_GROUP => col.friendGroupDefined c

/-- Modelled from the spec: the channel as it is stored, its id cleared before
the group id is derived from the content. -/
def stampChannel (col : Collaborators) (channel : RsGxsChannelGroup) : RsGxsChannelGroup :=
  let blank : RsGxsChannelGroup := { channel with mMeta := { channel.mMeta with mGroupId := 0 } }
  { blank with mMeta := { blank.mMeta with mGroupId := col.groupIdOf blank, mSubscribed := true } }

/-- Modelled from the spec: the local validation of `createChannel`; `none`
when the input is accepted. -/
def createChannel.failure (col : Collaborators) (s : ContentStore)
    (channel : RsGxsChannelGroup) : Option FacadeError :=
  if channel.mMeta.mGroupName = "" then some FacadeError.ValidationError
  else if circleRule col channel.mMeta.mCircleType channel.mMeta.mCircleId = false then
    some FacadeError.ValidationError
  else if (s.findChannel (stampChannel col channel).mMeta.mGroupId).isSome then
    some FacadeError.StateError
  else none

/-- Modelled from the spec: `createChannel(RsGxsChannelGroup& channel)`. The
creator holds the admin and publish keys of the new channel. -/
def createChannel (col : Collaborators) (s : ContentStore) (channel : RsGxsChannelGroup) :
    CreateResult :=
  match createChannel.failure col s channel with
  | some e => CreateResult.rejected s e
  | none =>
    CreateResult.committed
      { s with channels := s.channels ++
          [{ group := stampChannel col channel, adminKey := true, publishKey := true }] }
      (stampChannel col channel).mMeta.mGroupId

/-- Modelled from the spec: `createChannelV2`, the record is filled from the
arguments and handed to the shared creation logic. -/
def createChannelV2 (col : Collaborators) (s : ContentStore) (name description : String)
    (thumbnail : RsGxsImage) (authorId : RsGxsId) (circleType : RsGxsCircleType)
    (circleId : RsGxsCircleId) : CreateResult :=
  createChannel col s
    { mMeta := { mGroupName := name, mAuthorId := authorId, mCircleType := circleType,
                 mCircleId := circleId },
      mDescription := description, mImage := thumbnail }

/-- Modelled from the spec: the local validation of `editChannel`: the channel
must exist locally, the caller must hold its admin key, the name must not be
empty. -/
def editChannel.failure (s : ContentStore) (channel : RsGxsChannelGroup) : Option FacadeError :=
  match s.findChannel channel.mMeta.mGroupId with
  | none => some FacadeError.NotFoundError
  | some e =>
    if e.adminKey = false then some FacadeError.PermissionError
    else if channel.mMeta.mGroupName = "" then some FacadeError.ValidationError
    else none

/-- Modelled from the spec: replace the stored version of a channel, keeping the
keys held for it. -/
def replaceChannel (channel : RsGxsChannelGroup) : List ChannelEntry → List ChannelEntry
  | [] => []
  | e :: rest =>
    if e.group.mMeta.mGroupId = channel.mMeta.mGroupId then { e with group := channel } :: rest
    else e :: replaceChannel channel rest

/-- Modelled from the spec: `bool editChannel(RsGxsChannelGroup& channel)`. The
declaration has no `errorMessage` parameter: the boolean is the whole result. -/
def editChannel (s : ContentStore) (channel : RsGxsChannelGroup) : Bool × ContentStore :=
  match editChannel.failure s channel with
  | some _ => (false, s)
  | none => (true, { s with channels := replaceChannel channel s.channels })


/-! ### Posts -/

/-- Modelled from the spec: the post as it is stored, `mCount` and `mSize`
recomputed from the attached files (in the ranges of their C++ types) and the
message id derived from the content. -/
def stampPost (col : Collaborators) (post : RsGxsChannelPost) : RsGxsChannelPost :=
  let blank : RsGxsChannelPost :=
    { post with
      mMeta := { post.mMeta with mMsgId := 0 },
      mCount := post.mFiles.length % UINT32_RANGE,
      mSize := (post.mFiles.map RsGxsFile.mSize).sum % UINT64_RANGE }
  { blank with mMeta := { blank.mMeta with mMsgId := col.postIdOf blank } }

/-- Modelled from the spec: the local validation of `createPost`; `none` when
the input is accepted. The channel must exist locally with publish rights, a
cited original post must exist in the channel, every attached file must already
be hashed, the post must not supersede itself and its identifier must not be
assigned already. -/
def createPost.failure (col : Collaborators) (s : ContentStore) (post : RsGxsChannelPost) :
    Option FacadeError :=
  match s.findChannel post.mMeta.mGroupId with
  | none => some FacadeError.NotFoundError
  | some e =>
    if e.publishKey = false then some FacadeError.PermissionError
    else if post.mMeta.mOrigMsgId ≠ 0 ∧
        (s.findPost post.mMeta.mGroupId post.mMeta.mOrigMsgId).isNone then
      some FacadeError.NotFoundError
    else if post.mFiles.all (fun f => col.fileHashed f.mHash) = false then
      some FacadeError.ValidationError
    else if (stampPost col post).mMeta.mMsgId ∈ post.mOlderVersions then
      some FacadeError.ValidationError
    else if (stampPost col post).mMeta.mMsgId ∈ s.msgIds then some FacadeError.StateError
    else none

/-- Modelled from the spec: `createPost(RsGxsChannelPost& post)`. -/
def createPost (col : Collaborators) (s : ContentStore) (post : RsGxsChannelPost) :
    CreateResult :=
  match createPost.failure col s post with
  | some e => CreateResult.rejected s e
  | none =>
    CreateResult.committed { s with posts := s.posts ++ [stampPost col post] }
      (stampPost col post).mMeta.mMsgId

/-- Modelled from the spec: the record `createPostV2` fills from its arguments.
A non empty `origPostId` is a version-supersede: `mOlderVersions` gains it. -/
def postOfArguments (channelId : RsGxsGroupId) (title mBody : String) (files : List RsGxsFile)
    (thumbnail : RsGxsImage) (origPostId : RsGxsMessageId) : RsGxsChannelPost :=
  { mMeta := { mGroupId := channelId, mMsgName := title, mOrigMsgId := origPostId },
    mOlderVersions := if origPostId = 0 then ∅ else {origPostId},
    mMsg := mBody, mFiles := files, mThumbnail := thumbnail }

/-- Modelled from the spec: `createPostV2`. -/
def createPostV2 (col : Collaborators) (s : ContentStore) (channelId : RsGxsGroupId)
    (title mBody : String) (files : List RsGxsFile) (thumbnail : RsGxsImage)
    (origPostId : RsGxsMessageId) : CreateResult :=
  createPost col s (postOfArguments channelId title mBody files thumbnail origPostId)

/-- Modelled from the spec: `getChannelContent`: false when the channel is not
in the local view, otherwise the stored posts and comments of the channel whose
ids were requested. -/
def getChannelContent (s : ContentStore) (channelId : RsGxsGroupId)
    (contentsIds : Finset RsGxsMessageId) :
    Bool × List RsGxsChannelPost × List RsGxsComment :=
  match s.findChannel channelId with
  | none => (false, [], [])
  | some _ =>
    (true,
     s.posts.filter (fun p => decide (p.mMeta.mGroupId = channelId ∧ p.mMeta.mMsgId ∈ contentsIds)),
     s.comments.filter
       (fun c => decide (c.mMeta.mGroupId = channelId ∧ c.mMeta.mMsgId ∈ contentsIds)))

/-! ### Comments -/

/-- Modelled from the spec: the comment as it is stored, its message id derived
from the content. -/
def stampComment (col : Collaborators) (comment : RsGxsComment) : RsGxsComment :=
  let blank : RsGxsComment := { comment with mMeta := { comment.mMeta with mMsgId := 0 } }
  { blank with mMeta := { blank.mMeta with mMsgId := col.commentIdOf blank } }

/-- Modelled from the spec: the local validation of `createComment`; `none`
when the input is accepted. The channel and the thread post must exist locally,
the parent chain must lead to the thread within the graph size, and the
identifier must not be assigned already. -/
def createComment.failure (col : Collaborators) (s : ContentStore) (comment : RsGxsComment) :
    Option FacadeError :=
  match s.findChannel comment.mMeta.mGroupId with
  | none => some FacadeError.NotFoundError
  | some _ =>
    if (s.findPost comment.mMeta.mGroupId comment.mMeta.mThreadId).isNone then
      some FacadeError.NotFoundError
    else if (stepsToThread s.comments comment.mMeta.mThreadId s.size
        comment.mMeta.mParentId).isNone then
      some FacadeError.ValidationError
    else if (stampComment col comment).mMeta.mMsgId ∈ s.msgIds then some FacadeError.StateError
    else none

/-- Modelled from the spec: `createComment(RsGxsComment& comment)`. -/
def createComment (col : Collaborators) (s : ContentStore) (comment : RsGxsComment) :
    CreateResult :=
  match createComment.failure col s comment with
  | some e => CreateResult.rejected s e
  | none =>
    CreateResult.committed { s with comments := s.comments ++ [stampComment col comment] }
      (stampComment col comment).mMeta.mMsgId

/-- Modelled from the spec: `createCommentV2`. -/
def createCommentV2 (col : Collaborators) (s : ContentStore) (channelId : RsGxsGroupId)
    (threadId parentId : RsGxsMessageId) (authorId : RsGxsId) (comment : String) :
    CreateResult :=
  createComment col s
    { mMeta := { mGroupId := channelId, mThreadId := threadId, mParentId := parentId,
                 mAuthorId := authorId },
      mComment := comment }

/-! ### Votes -/

/-- Modelled from the spec: the vote as it is stored, its message id derived
from the content. -/
def stampVote (col : Collaborators) (vote : RsGxsVote) : RsGxsVote :=
  let blank : RsGxsVote := { vote with mMeta := { vote.mMeta with mMsgId := 0 } }
  { blank with mMeta := { blank.mMeta with mMsgId := col.voteIdOf blank } }

/-- Modelled from the spec: the local validation of `createVote`; `none` when
the input is accepted. Channel, post and comment must exist locally, the author
must be an owned identity, the author must not have voted on the comment yet
and the identifier must not be assigned already. -/
def createVote.failure (col : Collaborators) (s : ContentStore) (vote : RsGxsVote) :
    Option FacadeError :=
  match s.findChannel vote.mMeta.mGroupId with
  | none => some FacadeError.NotFoundError
  | some _ =>
    if (s.findPost vote.mMeta.mGroupId vote.mMeta.mThreadId).isNone then
      some FacadeError.NotFoundError
    else if (findComment s.comments vote.mMeta.mParentId).isNone then
      some FacadeError.NotFoundError
    else if col.ownsIdentity vote.mMeta.mAuthorId = false then some FacadeError.PermissionError
    else if s.votes.any (fun v => decide (v.mMeta.mAuthorId = vote.mMeta.mAuthorId ∧
        v.mMeta.mParentId = vote.mMeta.mParentId)) = true then
      some FacadeError.StateError
    else if (stampVote col vote).mMeta.mMsgId ∈ s.msgIds then some FacadeError.StateError
    else none

/-- Modelled from the spec: `createVote(RsGxsVote& vote)`. -/
def createVote (col : Collaborators) (s : ContentStore) (vote : RsGxsVote) : CreateResult :=
  match createVote.failure col s vote with
  | some e => CreateResult.rejected s e
  | none =>
    CreateResult.committed { s with votes := s.votes ++ [stampVote col vote] }
      (stampVote col vote).mMeta.mMsgId

/-- Modelled from the spec: `createVoteV2`. -/
def createVoteV2 (col : Collaborators) (s : ContentStore) (channelId : RsGxsGroupId)
    (postId commentId : RsGxsMessageId) (authorId : RsGxsId) (vote : RsGxsVoteType) :
    CreateResult :=
  createVote col s
    { mMeta := { mGroupId := channelId, mThreadId := postId, mParentId := commentId,
                 mAuthorId := authorId },
      mVoteType := vote }

/-! ### Calls of the facade -/

/-- A call of one of the mutating operations of the facade with its arguments. -/
inductive FacadeCall where
  | createChannel (channel : RsGxsChannelGroup)
  | createChannelV2 (name description : String) (thumbnail : RsGxsImage) (authorId : RsGxsId)
      (circleType : RsGxsCircleType) (circleId : RsGxsCircleId)
  | createPost (post : RsGxsChannelPost)
  | createPostV2 (channelId : RsGxsGroupId) (title mBody : String) (files : List RsGxsFile)
      (thumbnail : RsGxsImage) (origPostId : RsGxsMessageId)
  | createComment (comment : RsGxsComment)
  | createCommentV2 (channelId : RsGxsGroupId) (threadId parentId : RsGxsMessageId)
      (authorId : RsGxsId) (comment : String)
  | createVote (vote : RsGxsVote)
  | createVoteV2 (channelId : RsGxsGroupId) (postId commentId : RsGxsMessageId)
      (authorId : RsGxsId) (vote : RsGxsVoteType)
  | editChannel (channel : RsGxsChannelGroup)

/-- The boolean result of a call and the store after it. -/
def FacadeCall.run (col : Collaborators) (s : ContentStore) : FacadeCall → Bool × ContentStore
  | FacadeCall.createChannel channel =>
    ((RetroShare.createChannel col s channel).success, (RetroShare.createChannel col s channel).store)
  | FacadeCall.createChannelV2 name description thumbnail authorId circleType circleId =>
    ((RetroShare.createChannelV2 col s name description thumbnail authorId circleType
        circleId).success,
     (RetroShare.createChannelV2 col s name description thumbnail authorId circleType
        circleId).store)
  | FacadeCall.createPost post =>
    ((RetroShare.createPost col s post).success, (RetroShare.createPost col s post).store)
  | FacadeCall.createPostV2 channelId title mBody files thumbnail origPostId =>
    ((RetroShare.createPostV2 col s channelId title mBody files thumbnail origPostId).success,
     (RetroShare.createPostV2 col s channelId title mBody files thumbnail origPostId).store)
  | FacadeCall.createComment comment =>
    ((RetroShare.createComment col s comment).success, (RetroShare.createComment col s comment).store)
  | FacadeCall.createCommentV2 channelId threadId parentId authorId comment =>
    ((RetroShare.createCommentV2 col s channelId threadId parentId authorId comment).success,
     (RetroShare.createCommentV2 col s channelId threadId parentId authorId comment).store)
  | FacadeCall.createVote vote =>
    ((RetroShare.createVote col s vote).success, (RetroShare.createVote col s vote).store)
  | FacadeCall.createVoteV2 channelId postId commentId authorId vote =>
    ((RetroShare.createVoteV2 col s channelId postId commentId authorId vote).success,
     (RetroShare.createVoteV2 col s channelId postId commentId authorId vote).store)
  | FacadeCall.editChannel channel => RetroShare.editChannel s channel

/-- The store after a sequence of facade calls, each started after the previous
one returned. -/
def runCalls (col : Collaborators) (s : ContentStore) : List FacadeCall → ContentStore
  | [] => s
  | c :: rest => runCalls col (c.run col s).2 rest


/-! ### Declarative validity of a call -/

/-- Modelled from the spec: inputs `createChannel` accepts. -/
def createChannel.valid (col : Collaborators) (s : ContentStore) (channel : RsGxsChannelGroup) :
    Prop :=
  channel.mMeta.mGroupName ≠ "" ∧
  circleRule col channel.mMeta.mCircleType channel.mMeta.mCircleId = true ∧
  s.findChannel (stampChannel col channel).mMeta.mGroupId = none

/-- Modelled from the spec: inputs `createPost` accepts. -/
def createPost.valid (col : Collaborators) (s : ContentStore) (post : RsGxsChannelPost) : Prop :=
  (∃ e, s.findChannel post.mMeta.mGroupId = some e ∧ e.publishKey = true) ∧
  (post.mMeta.mOrigMsgId = 0 ∨
    ∃ p, s.findPost post.mMeta.mGroupId post.mMeta.mOrigMsgId = some p) ∧
  (∀ f ∈ post.mFiles, col.fileHashed f.mHash = true) ∧
  (stampPost col post).mMeta.mMsgId ∉ post.mOlderVersions ∧
  (stampPost col post).mMeta.mMsgId ∉ s.msgIds

/-- Modelled from the spec: inputs `createComment` accepts. -/
def createComment.valid (col : Collaborators) (s : ContentStore) (comment : RsGxsComment) :
    Prop :=
  (∃ e, s.findChannel comment.mMeta.mGroupId = some e) ∧
  (∃ p, s.findPost comment.mMeta.mGroupId comment.mMeta.mThreadId = some p) ∧
  (∃ k, stepsToThread s.comments comment.mMeta.mThreadId s.size comment.mMeta.mParentId
      = some k) ∧
  (stampComment col comment).mMeta.mMsgId ∉ s.msgIds

/-- Modelled from the spec: inputs `createVote` accepts. -/
def createVote.valid (col : Collaborators) (s : ContentStore) (vote : RsGxsVote) : Prop :=
  (∃ e, s.findChannel vote.mMeta.mGroupId = some e) ∧
  (∃ p, s.findPost vote.mMeta.mGroupId vote.mMeta.mThreadId = some p) ∧
  (∃ c, findComment s.comments vote.mMeta.mParentId = some c) ∧
  col.ownsIdentity vote.mMeta.mAuthorId = true ∧
  (∀ v ∈ s.votes, ¬ (v.mMeta.mAuthorId = vote.mMeta.mAuthorId ∧
      v.mMeta.mParentId = vote.mMeta.mParentId)) ∧
  (stampVote col vote).mMeta.mMsgId ∉ s.msgIds

/-- Modelled from the spec: inputs `editChannel` accepts. -/
def editChannel.valid (s : ContentStore) (channel : RsGxsChannelGroup) : Prop :=
  (∃ e, s.findChannel channel.mMeta.mGroupId = some e ∧ e.adminKey = true) ∧
  channel.mMeta.mGroupName ≠ ""

/-- Modelled from the spec: a call is valid in a store when its operation
accepts its input there. -/
def FacadeCall.valid (col : Collaborators) (s : ContentStore) : FacadeCall → Prop
  | FacadeCall.createChannel channel => createChannel.valid col s channel
  | FacadeCall.createChannelV2 name description thumbnail authorId circleType circleId =>
    createChannel.valid col s
      { mMeta := { mGroupName := name, mAuthorId := authorId, mCircleType := circleType,
                   mCircleId := circleId },
        mDescription := description, mImage := thumbnail }
  | FacadeCall.createPost post => createPost.valid col s post
  | FacadeCall.createPostV2 channelId title mBody files thumbnail origPostId =>
    createPost.valid col s (postOfArguments channelId title mBody files thumbnail origPostId)
  | FacadeCall.createComment comment => createComment.valid col s comment
  | FacadeCall.createCommentV2 channelId threadId parentId authorId comment =>
    createComment.valid col s
      { mMeta := { mGroupId := channelId, mThreadId := threadId, mParentId := parentId,
                   mAuthorId := authorId },
        mComment := comment }
  | FacadeCall.createVote vote => createVote.valid col s vote
  | FacadeCall.createVoteV2 channelId postId commentId authorId vote =>
    createVote.valid col s
      { mMeta := { mGroupId := channelId, mThreadId := postId, mParentId := commentId,
                   mAuthorId := authorId },
        mVoteType := vote }
  | FacadeCall.editChannel channel => editChannel.valid s channel

/-! ## Anonymous search and retrieval (modelled from the specification) -/

/-- Modelled from the spec: the group summary of `retroshare/rsgxsifacetypes.h`
handed to the search callbacks. -/
structure RsGxsGroupSummary where
  mGroupId : RsGxsGroupId := 0
  mGroupName : String := ""
  mAuthorId : RsGxsId := 0
  mNumberOfMessages : Nat := 0
  deriving DecidableEq, Repr

/-- Default of the parameter `maxWait` of `turtleSearchRequest`. -/
def turtleSearchRequest.defaultMaxWait : rstime_t := 300
/-- Default of the parameter `maxWait` of `turtleChannelRequest`. -/
def turtleChannelRequest.defaultMaxWait : rstime_t := 300
/-- Default of the parameter `maxWait` of `localSearchRequest`. -/
def localSearchRequest.defaultMaxWait : rstime_t := 30

/-- Modelled from the spec: a request accepted for dispatch: its time window,
whether the window is still open, the identifiers already delivered and the
arguments of the `multiCallback` invocations so far, oldest first. -/
structure PendingRequest (ρ : Type) where
  maxWait : rstime_t
  windowOpen : Bool
  delivered : List RsGxsGroupId
  invocations : List ρ

/-- Modelled from the spec: what can happen to a pending request: a result
arrives for it, or its `maxWait` window elapses. -/
inductive RequestEvent (ρ : Type) where
  | result (r : ρ)
  | windowElapsed

/-- Modelled from the spec: handling of one event: a result is handed to
`multiCallback` when the window is open and its identifier was not delivered
before; after the window elapsed nothing is delivered. -/
def PendingRequest.handle {ρ : Type} (idOf : ρ → RsGxsGroupId) (req : PendingRequest ρ) :
    RequestEvent ρ → PendingRequest ρ
  | RequestEvent.result r =>
    if req.windowOpen = true ∧ idOf r ∉ req.delivered then
      { req with delivered := req.delivered ++ [idOf r], invocations := req.invocations ++ [r] }
    else req
  | RequestEvent.windowElapsed => { req with windowOpen := false }

/-- Modelled from the spec: handling of a sequence of events in arrival order. -/
def PendingRequest.handleAll {ρ : Type} (idOf : ρ → RsGxsGroupId) (req : PendingRequest ρ) :
    List (RequestEvent ρ) → PendingRequest ρ
  | [] => req
  | ev :: rest => PendingRequest.handleAll idOf (req.handle idOf ev) rest

/-- Modelled from the spec: a request as dispatch accepts it, no result yet. -/
def PendingRequest.fresh (ρ : Type) (maxWait : rstime_t) : PendingRequest ρ :=
  { maxWait := maxWait, windowOpen := true, delivered := [], invocations := [] }

/-- Modelled from the spec: `turtleSearchRequest(matchString, multiCallback,
maxWait = 300)`: the boolean tells whether the overlay accepted the request for
dispatch; `maxWait = none` stands for the omitted argument. -/
def turtleSearchRequest (overlayAccepts : Bool) (_matchString : String)
    (maxWait : Option rstime_t) : Bool × Option (PendingRequest RsGxsGroupSummary) :=
  if overlayAccepts then
    (true, some (PendingRequest.fresh RsGxsGroupSummary
      (maxWait.getD turtleSearchRequest.defaultMaxWait)))
  else (false, none)

/-- Modelled from the spec: `turtleChannelRequest(channelId, multiCallback,
maxWait = 300)`. -/
def turtleChannelRequest (overlayAccepts : Bool) (_channelId : RsGxsGroupId)
    (maxWait : Option rstime_t) : Bool × Option (PendingRequest RsGxsChannelGroup) :=
  if overlayAccepts then
    (true, some (PendingRequest.fresh RsGxsChannelGroup
      (maxWait.getD turtleChannelRequest.defaultMaxWait)))
  else (false, none)

/-- Modelled from the spec: `localSearchRequest(matchString, multiCallback,
maxWait = 30)`: the same handling fed with the matching channels of the local
store only; `isMatch` is the matching shared with the remote search. -/
def localSearchRequest (isMatch : String → RsGxsChannelGroup → Bool) (s : ContentStore)
    (matchString : String) (maxWait : Option rstime_t) :
    Bool × PendingRequest RsGxsGroupSummary :=
  (true,
   PendingRequest.handleAll RsGxsGroupSummary.mGroupId
     (PendingRequest.fresh RsGxsGroupSummary (maxWait.getD localSearchRequest.defaultMaxWait))
     (((s.channels.map ChannelEntry.group).filter (isMatch matchString)).map
       (fun g => RequestEvent.result
         { mGroupId := g.mMeta.mGroupId, mGroupName := g.mMeta.mGroupName,
           mAuthorId := g.mMeta.mAuthorId })))


/-! ## The declarations of the interface `RsGxsChannels` -/

/-- Return types used by the methods of `RsGxsChannels`. -/
inductive ReturnType where
  | bool
  | void
  | turtleRequestId
  deriving DecidableEq, Repr

/-- One parameter of a method declaration: its C++ type, its name, whether the
header documents it as storage written by the call (`@param[out]`,
`@param[inout]`, or a result container), and its default argument if any. -/
structure Parameter where
  type : String
  name : String
  output : Bool
  defaultValue : Option String
  deriving DecidableEq, Repr

/-- One pure virtual method of `RsGxsChannels`: name, return type, parameters,
whether it is marked `RS_DEPRECATED`, and whether it changes state (creates,
edits, shares, subscribes, marks, sets or clears something) rather than reads
or searches. -/
structure Method where
  name : String
  returns : ReturnType
  deprecated : Bool
  mutating : Bool
  params : List Parameter
  deriving DecidableEq, Repr

/-- The methods of `class RsGxsChannels`, in declaration order. -/
def RsGxsChannels.methods : List Method := [
  { name := "createChannelV2", returns := ReturnType.bool, deprecated := false, mutating := true,
    params := [
      ⟨"const std::string&", "name", false, none⟩,
      ⟨"const std::string&", "description", false, none⟩,
      ⟨"const RsGxsImage&", "thumbnail", false, some "RsGxsImage()"⟩,
      ⟨"const RsGxsId&", "authorId", false, some "RsGxsId()"⟩,
      ⟨"RsGxsCircleType", "circleType", false, some "RsGxsCircleType::PUBLIC"⟩,
      ⟨"const RsGxsCircleId&", "circleId", false, some "RsGxsCircleId()"⟩,
      ⟨"RsGxsGroupId&", "channelId", true, some "RS_DEFAULT_STORAGE_PARAM(RsGxsGroupId)"⟩,
      ⟨"std::string&", "errorMessage", true, some "RS_DEFAULT_STORAGE_PARAM(std::string)"⟩] },
  { name := "createCommentV2", returns := ReturnType.bool, deprecated := false, mutating := true,
    params := [
      ⟨"const RsGxsGroupId&", "channelId", false, none⟩,
      ⟨"const RsGxsMessageId&", "threadId", false, none⟩,
      ⟨"const RsGxsMessageId&", "parentId", false, none⟩,
      ⟨"const RsGxsId&", "authorId", false, none⟩,
      ⟨"const std::string&", "comment", false, none⟩,
      ⟨"RsGxsMessageId&", "commentMessageId", true, some "RS_DEFAULT_STORAGE_PARAM(RsGxsMessageId)"⟩,
      ⟨"std::string&", "errorMessage", true, some "RS_DEFAULT_STORAGE_PARAM(std::string)"⟩] },
  { name := "createPostV2", returns := ReturnType.bool, deprecated := false, mutating := true,
    params := [
      ⟨"const RsGxsGroupId&", "channelId", false, none⟩,
      ⟨"const std::string&", "title", false, none⟩,
      ⟨"const std::string&", "mBody", false, none⟩,
      ⟨"const std::list<RsGxsFile>&", "files", false, some "std::list<RsGxsFile>()"⟩,
      ⟨"const RsGxsImage&", "thumbnail", false, some "RsGxsImage()"⟩,
      ⟨"const RsGxsMessageId&", "origPostId", false, some "RsGxsMessageId()"⟩,
      ⟨"RsGxsMessageId&", "postId", true, some "RS_DEFAULT_STORAGE_PARAM(RsGxsMessageId)"⟩,
      ⟨"std::string&", "errorMessage", true, some "RS_DEFAULT_STORAGE_PARAM(std::string)"⟩] },
  { name := "createVoteV2", returns := ReturnType.bool, deprecated := false, mutating := true,
    params := [
      ⟨"const RsGxsGroupId&", "channelId", false, none⟩,
      ⟨"const RsGxsMessageId&", "postId", false, none⟩,
      ⟨"const RsGxsMessageId&", "commentId", false, none⟩,
      ⟨"const RsGxsId&", "authorId", false, none⟩,
      ⟨"RsGxsVoteType", "vote", false, none⟩,
      ⟨"RsGxsMessageId&", "voteId", true, some "RS_DEFAULT_STORAGE_PARAM(RsGxsMessageId)"⟩,
      ⟨"std::string&", "errorMessage", true, some "RS_DEFAULT_STORAGE_PARAM(std::string)"⟩] },
  { name := "editChannel", returns := ReturnType.bool, deprecated := false, mutating := true,
    params := [
      ⟨"RsGxsChannelGroup&", "channel", false, none⟩] },
  { name := "ExtraFileHash", returns := ReturnType.bool, deprecated := false, mutating := true,
    params := [
      ⟨"const std::string&", "path", false, none⟩] },
  { name := "ExtraFileRemove", returns := ReturnType.bool, deprecated := false, mutating := true,
    params := [
      ⟨"const RsFileHash&", "hash", false, none⟩] },
  { name := "getChannelAutoDownload", returns := ReturnType.bool, deprecated := false, mutating := false,
    params := [
      ⟨"const RsGxsGroupId&", "channelId", false, none⟩,
      ⟨"bool&", "enabled", true, none⟩] },
  { name := "getChannelDownloadDirectory", returns := ReturnType.bool, deprecated := false, mutating := false,
    params := [
      ⟨"const RsGxsGroupId&", "channelId", false, none⟩,
      ⟨"std::string&", "directory", true, none⟩] },
  { name := "getChannelsSummaries", returns := ReturnType.bool, deprecated := false, mutating := false,
    params := [
      ⟨"std::list<RsGroupMetaData>&", "channels", true, none⟩] },
  { name := "getChannelsInfo", returns := ReturnType.bool, deprecated := false, mutating := false,
    params := [
      ⟨"const std::list<RsGxsGroupId>&", "chanIds", false, none⟩,
      ⟨"std::vector<RsGxsChannelGroup>&", "channelsInfo", true, none⟩] },
  { name := "getChannelContent", returns := ReturnType.bool, deprecated := false, mutating := false,
    params := [
      ⟨"const RsGxsGroupId&", "channelId", false, none⟩,
      ⟨"const std::set<RsGxsMessageId>&", "contentsIds", false, none⟩,
      ⟨"std::vector<RsGxsChannelPost>&", "posts", true, none⟩,
      ⟨"std::vector<RsGxsComment>&", "comments", true, none⟩] },
  { name := "getContentSummaries", returns := ReturnType.bool, deprecated := false, mutating := false,
    params := [
      ⟨"const RsGxsGroupId&", "channelId", false, none⟩,
      ⟨"std::vector<RsMsgMetaData>&", "summaries", true, none⟩] },
  { name := "markRead", returns := ReturnType.bool, deprecated := false, mutating := true,
    params := [
      ⟨"const RsGxsGrpMsgIdPair&", "postId", false, none⟩,
      ⟨"bool", "read", false, none⟩] },
  { name := "setChannelAutoDownload", returns := ReturnType.bool, deprecated := false, mutating := true,
    params := [
      ⟨"const RsGxsGroupId&", "channelId", false, none⟩,
      ⟨"bool", "enable", false, none⟩] },
  { name := "shareChannelKeys", returns := ReturnType.bool, deprecated := false, mutating := true,
    params := [
      ⟨"const RsGxsGroupId&", "channelId", false, none⟩,
      ⟨"const std::set<RsPeerId>&", "peers", false, none⟩] },
  { name := "setChannelDownloadDirectory", returns := ReturnType.bool, deprecated := false, mutating := true,
    params := [
      ⟨"const RsGxsGroupId&", "channelId", false, none⟩,
      ⟨"const std::string&", "directory", false, none⟩] },
  { name := "subscribeToChannel", returns := ReturnType.bool, deprecated := false, mutating := true,
    params := [
      ⟨"const RsGxsGroupId&", "channelId", false, none⟩,
      ⟨"bool", "subscribe", false, none⟩] },
  { name := "turtleSearchRequest", returns := ReturnType.bool, deprecated := false, mutating := false,
    params := [
      ⟨"const std::string&", "matchString", false, none⟩,
      ⟨"const std::function<void (const RsGxsGroupSummary& result)>&", "multiCallback", false, none⟩,
      ⟨"rstime_t", "maxWait", false, some "300"⟩] },
  { name := "turtleChannelRequest", returns := ReturnType.bool, deprecated := false, mutating := false,
    params := [
      ⟨"const RsGxsGroupId&", "channelId", false, none⟩,
      ⟨"const std::function<void (const RsGxsChannelGroup& result)>&", "multiCallback", false, none⟩,
      ⟨"rstime_t", "maxWait", false, some "300"⟩] },
  { name := "localSearchRequest", returns := ReturnType.bool, deprecated := false, mutating := false,
    params := [
      ⟨"const std::string&", "matchString", false, none⟩,
      ⟨"const std::function<void (const RsGxsGroupSummary& result)>&", "multiCallback", false, none⟩,
      ⟨"rstime_t", "maxWait", false, some "30"⟩] },
  { name := "createChannel", returns := ReturnType.bool, deprecated := true, mutating := true,
    params := [
      ⟨"RsGxsChannelGroup&", "channel", true, none⟩] },
  { name := "getGroupData", returns := ReturnType.bool, deprecated := true, mutating := false,
    params := [
      ⟨"const uint32_t&", "token", false, none⟩,
      ⟨"std::vector<RsGxsChannelGroup>&", "groups", true, none⟩] },
  { name := "getPostData", returns := ReturnType.bool, deprecated := true, mutating := false,
    params := [
      ⟨"const uint32_t&", "token", false, none⟩,
      ⟨"std::vector<RsGxsChannelPost>&", "posts", true, none⟩,
      ⟨"std::vector<RsGxsComment>&", "cmts", true, none⟩] },
  { name := "getPostData", returns := ReturnType.bool, deprecated := true, mutating := false,
    params := [
      ⟨"const uint32_t&", "token", false, none⟩,
      ⟨"std::vector<RsGxsChannelPost>&", "posts", true, none⟩] },
  { name := "setMessageReadStatus", returns := ReturnType.void, deprecated := true, mutating := true,
    params := [
      ⟨"uint32_t&", "token", true, none⟩,
      ⟨"const RsGxsGrpMsgIdPair&", "msgId", false, none⟩,
      ⟨"bool", "read", false, none⟩] },
  { name := "groupShareKeys", returns := ReturnType.bool, deprecated := true, mutating := true,
    params := [
      ⟨"const RsGxsGroupId&", "groupId", false, none⟩,
      ⟨"const std::set<RsPeerId>&", "peers", false, none⟩] },
  { name := "subscribeToGroup", returns := ReturnType.bool, deprecated := true, mutating := true,
    params := [
      ⟨"uint32_t&", "token", true, none⟩,
      ⟨"const RsGxsGroupId&", "groupId", false, none⟩,
      ⟨"bool", "subscribe", false, none⟩] },
  { name := "createGroup", returns := ReturnType.bool, deprecated := true, mutating := true,
    params := [
      ⟨"uint32_t&", "token", true, none⟩,
      ⟨"RsGxsChannelGroup&", "group", false, none⟩] },
  { name := "createComment", returns := ReturnType.bool, deprecated := true, mutating := true,
    params := [
      ⟨"RsGxsComment&", "comment", true, none⟩] },
  { name := "createPost", returns := ReturnType.bool, deprecated := true, mutating := true,
    params := [
      ⟨"RsGxsChannelPost&", "post", true, none⟩] },
  { name := "createPost", returns := ReturnType.bool, deprecated := true, mutating := true,
    params := [
      ⟨"uint32_t&", "token", true, none⟩,
      ⟨"RsGxsChannelPost&", "post", false, none⟩] },
  { name := "createVote", returns := ReturnType.bool, deprecated := true, mutating := true,
    params := [
      ⟨"RsGxsVote&", "vote", true, none⟩] },
  { name := "updateGroup", returns := ReturnType.bool, deprecated := true, mutating := true,
    params := [
      ⟨"uint32_t&", "token", true, none⟩,
      ⟨"RsGxsChannelGroup&", "group", false, none⟩] },
  { name := "turtleGroupRequest", returns := ReturnType.turtleRequestId, deprecated := true, mutating := false,
    params := [
      ⟨"const RsGxsGroupId&", "group_id", false, none⟩] },
  { name := "turtleSearchRequest", returns := ReturnType.turtleRequestId, deprecated := true, mutating := false,
    params := [
      ⟨"const std::string&", "match_string", false, none⟩] },
  { name := "retrieveDistantSearchResults", returns := ReturnType.bool, deprecated := true, mutating := false,
    params := [
      ⟨"TurtleRequestId", "req", false, none⟩,
      ⟨"std::map<RsGxsGroupId, RsGxsGroupSummary>&", "results", true, none⟩] },
  { name := "clearDistantSearchResults", returns := ReturnType.bool, deprecated := true, mutating := true,
    params := [
      ⟨"TurtleRequestId", "req", false, none⟩] },
  { name := "retrieveDistantGroup", returns := ReturnType.bool, deprecated := true, mutating := false,
    params := [
      ⟨"const RsGxsGroupId&", "group_id", false, none⟩,
      ⟨"RsGxsChannelGroup&", "distant_group", true, none⟩] }]

/-- The method has a `std::string& errorMessage` output parameter. -/
def Method.hasErrorMessage (m : Method) : Bool :=
  m.params.any (fun p => p.name == "errorMessage" && p.type == "std::string&" && p.output)

/-- The method has an output parameter for a newly created identifier. -/
def Method.hasIdOutput (m : Method) : Bool :=
  m.params.any
    (fun p => (p.type == "RsGxsGroupId&" || p.type == "RsGxsMessageId&") && p.output)

/-- The error reporting shape: a boolean result together with an `errorMessage`
output. -/
def Method.reportsError (m : Method) : Bool :=
  decide (m.returns = ReturnType.bool) && m.hasErrorMessage

/-- The four creation methods of the current generation. -/
def RsGxsChannels.creationsV2 : List String :=
  ["createChannelV2", "createCommentV2", "createPostV2", "createVoteV2"]

/-- The declaration of `editChannel`, line 224 of the header. -/
def RsGxsChannels.editChannelDecl : Method :=
  { name := "editChannel", returns := ReturnType.bool, deprecated := false, mutating := true,
    params := [⟨"RsGxsChannelGroup&", "channel", false, none⟩] }

/-- The declaration of `setMessageReadStatus`, lines 428 to 430 of the header. -/
def RsGxsChannels.setMessageReadStatusDecl : Method :=
  { name := "setMessageReadStatus", returns := ReturnType.void, deprecated := true,
    mutating := true,
    params := [⟨"uint32_t&", "token", true, none⟩,
               ⟨"const RsGxsGrpMsgIdPair&", "msgId", false, none⟩,
               ⟨"bool", "read", false, none⟩] }


/-- The out-parameters of a creation agree with its boolean: on success the
identifier is written and no error message, on failure an error message and no
identifier. -/
def CreateResult.outputsConsistent (r : CreateResult) : Prop :=
  (r.success = true → r.errorMessage = none ∧ r.newId.isSome = true) ∧
  (r.success = false → r.errorMessage.isSome = true ∧ r.newId = none)

/-! ## Default arguments of `createChannelV2` -/

/-- Default of the parameter `thumbnail` of `createChannelV2`: `RsGxsImage()`. -/
def createChannelV2.defaultThumbnail : RsGxsImage := {}
/-- Default of the parameter `authorId` of `createChannelV2`: `RsGxsId()`, the
empty identity. -/
def createChannelV2.defaultAuthorId : RsGxsId := 0
/-- Default of the parameter `circleType` of `createChannelV2`:
`RsGxsCircleType::PUBLIC`. -/
def createChannelV2.defaultCircleType : RsGxsCircleType := RsGxsCircleType.PUBLIC
/-- Default of the parameter `circleId` of `createChannelV2`: `RsGxsCircleId()`,
the empty circle id. -/
def createChannelV2.defaultCircleId : RsGxsCircleId := 0

/-- The call `createChannelV2(name, description)`, every optional argument
omitted. -/
def createChannelV2.withDefaults (col : Collaborators) (s : ContentStore)
    (name description : String) : CreateResult :=
  createChannelV2 col s name description createChannelV2.defaultThumbnail
    createChannelV2.defaultAuthorId createChannelV2.defaultCircleType
    createChannelV2.defaultCircleId

/-- The default arguments the header declares for `createChannelV2`, in
parameter order. -/
def createChannelV2.declaredDefaults : List (String × Option String) :=
  match RsGxsChannels.methods.find? (fun m => m.name == "createChannelV2") with
  | some m => m.params.map (fun p => (p.name, p.defaultValue))
  | none => []

/-! ## Binary serialisation over a buffer -/

/-- Modelled from the spec: the context `RsGenericSerializer::SerializeContext`
of `serialiser/rsserializer.h`: the buffer, the offset reached in it and the
flag telling that no member failed so far. -/
structure SerializeContext where
  mData : List Nat := []
  mOffset : Nat := 0
  mOk : Bool := true
  deriving DecidableEq, Repr

/-- The context a deserialise job starts with: the buffer a serialise job
produced, read from its start. -/
def SerializeContext.forReading (ctx : SerializeContext) : SerializeContext :=
  { mData := ctx.mData, mOffset := 0, mOk := true }

/-- The wire format of one member type: the bytes written for a value, and the
value read back from the bytes at the offset together with the number of bytes
consumed. The formats are defined in `serialiser/rstypeserializer.h` and are
parameters here. -/
structure MemberCodec (α : Type) where
  encode : α → List Nat
  decode : List Nat → Option (α × Nat)

/-- The member serialiser round-trips on the values satisfying `dom`: whatever
follows in the buffer, decoding what was encoded gives the value back and
consumes exactly the bytes written. -/
def MemberCodec.roundTripsOn {α : Type} (c : MemberCodec α) (dom : α → Prop) : Prop :=
  ∀ (a : α) (rest : List Nat), dom a →
    c.decode (c.encode a ++ rest) = some (a, (c.encode a).length)

/-- Modelled from the spec: `RsTypeSerializer::serial_process(j, ctx, member,
name)` for one member type with a given wire format. A failed context is left
alone; `SERIALIZE` appends the bytes of the member, `SIZE_ESTIMATE` only counts
them, `DESERIALIZE` reads the member at the offset and marks the context failed
when the bytes do not decode; the remaining jobs do not touch the buffer. -/
def MemberCodec.process {α : Type} (c : MemberCodec α) (j : SerializeJob)
    (ctx : SerializeContext) (member : α) (_name : String) : SerializeContext × α :=
  if ctx.mOk = false then (ctx, member)
  else match j with
    | SerializeJob.SERIALIZE =>
      ({ ctx with mData := ctx.mData ++ c.encode member,
                  mOffset := ctx.mOffset + (c.encode member).length }, member)
    | SerializeJob.SIZE_ESTIMATE =>
      ({ ctx with mOffset := ctx.mOffset + (c.encode member).length }, member)
    | SerializeJob.DESERIALIZE =>
      match c.decode (ctx.mData.drop ctx.mOffset) with
      | some (value, consumed) => ({ ctx with mOffset := ctx.mOffset + consumed }, value)
      | none => ({ ctx with mOk := false }, member)
    | _ => (ctx, member)

/-- One wire format per member type used by the two records. -/
structure MemberCodecs where
  groupMeta : MemberCodec RsGroupMetaData
  msgMeta : MemberCodec RsMsgMetaData
  string : MemberCodec String
  image : MemberCodec RsGxsImage
  bool : MemberCodec Bool
  msgIdSet : MemberCodec (Finset RsGxsMessageId)
  fileList : MemberCodec (List RsGxsFile)
  uint32 : MemberCodec Nat
  uint64 : MemberCodec Nat

/-- Each member serialiser round-trips, the two integer formats on the range
of their C++ type. -/
def MemberCodecs.roundTrips (cs : MemberCodecs) : Prop :=
  cs.groupMeta.roundTripsOn (fun _ => True) ∧
  cs.msgMeta.roundTripsOn (fun _ => True) ∧
  cs.string.roundTripsOn (fun _ => True) ∧
  cs.image.roundTripsOn (fun _ => True) ∧
  cs.bool.roundTripsOn (fun _ => True) ∧
  cs.msgIdSet.roundTripsOn (fun _ => True) ∧
  cs.fileList.roundTripsOn (fun _ => True) ∧
  cs.uint32.roundTripsOn (fun n => n < UINT32_RANGE) ∧
  cs.uint64.roundTripsOn (fun n => n < UINT64_RANGE)

/-- The member level serialiser over a buffer built from the wire formats. -/
def MemberCodecs.serializer (cs : MemberCodecs) : RsTypeSerializer SerializeContext where
  groupMeta := cs.groupMeta.process
  msgMeta := cs.msgMeta.process
  string := cs.string.process
  image := cs.image.process
  bool := cs.bool.process
  msgIdSet := cs.msgIdSet.process
  fileList := cs.fileList.process
  uint32 := cs.uint32.process
  uint64 := cs.uint64.process

/-! ## Invariants and sample data -/

/-- Every stored comment reaches its thread by following `parentId` through
comments stored before it: the comment at position `i` needs at most `i` links
from its parent. -/
def commentsWellFounded (comments : List RsGxsComment) : Prop :=
  ∀ (i : Nat) (h : i < comments.length),
    ∃ k, stepsToThread comments (comments.get ⟨i, h⟩).mMeta.mThreadId i
      (comments.get ⟨i, h⟩).mMeta.mParentId = some k

/-- Sample collaborators: identifiers derived from the content by simple
arithmetic, every identity owned, every circle and friend group defined, every
file hashed. -/
def sampleCollaborators : Collaborators :=
  { groupIdOf := fun g => 1 + g.mMeta.mCircleId
    postIdOf := fun p => 100 + p.mMeta.mOrigMsgId
    commentIdOf := fun c => 1000 + c.mMeta.mParentId
    voteIdOf := fun v => 5000 + v.mMeta.mParentId
    ownsIdentity := fun _ => true
    circleDefined := fun _ => true
    friendGroupDefined := fun _ => true
    fileHashed := fun _ => true }

/-- Sample collaborators whose comment identifiers can collide: every comment
of the identity 9 gets the identifier 1100. -/
def collidingCollaborators : Collaborators :=
  { sampleCollaborators with
    commentIdOf := fun c => if c.mMeta.mAuthorId = 9 then 1100 else 1000 + c.mMeta.mParentId }

/-- The end-to-end scenario of the specification: a channel, a post, a second
version of the post, a comment on the first post and a reply to the comment. -/
def sampleCalls : List FacadeCall :=
  [FacadeCall.createChannelV2 "Tech" "..." {} 0 RsGxsCircleType.PUBLIC 0,
   FacadeCall.createPostV2 1 "Hello" "world" [] {} 0,
   FacadeCall.createPostV2 1 "Hello v2" "world!" [] {} 100,
   FacadeCall.createCommentV2 1 100 100 5 "first",
   FacadeCall.createCommentV2 1 100 1100 5 "reply"]

/-- The store after the scenario. -/
def sampleStore : ContentStore := runCalls sampleCollaborators {} sampleCalls

/-- A local view holding a channel received from a peer: subscribed, no admin
key, no publish key. -/
def foreignStore : ContentStore :=
  { channels := [{ group := { mMeta := { mGroupId := 7, mGroupName := "News" } },
                   adminKey := false, publishKey := false }] }

/-- An edit of the channel 7 of `foreignStore`. -/
def editOfForeignChannel : RsGxsChannelGroup :=
  { mMeta := { mGroupId := 7, mGroupName := "News, renamed" } }

/-- An edit of a channel 8 that `foreignStore` does not hold. -/
def editOfMissingChannel : RsGxsChannelGroup :=
  { mMeta := { mGroupId := 8, mGroupName := "Nowhere" } }

/-- The reply stored by the scenario: comment 2100 on post 100, child of the
comment 1100. -/
def sampleReply : RsGxsComment :=
  { mMeta := { mGroupId := 1, mMsgId := 2100, mThreadId := 100, mParentId := 1100,
               mAuthorId := 5 },
    mComment := "reply" }

/-- The store after the first two calls of the scenario: the channel and the
first version of the post. -/
def firstVersionStore : ContentStore := runCalls sampleCollaborators {} (sampleCalls.take 2)

/-- The first version of the post, as the scenario stores it. -/
def firstVersion : RsGxsChannelPost :=
  { mMeta := { mGroupId := 1, mMsgId := 100, mMsgName := "Hello" }, mMsg := "world" }

/-- The bookkeeping of a request is consistent: the delivered identifiers are
those of the callback invocations, without repetition. -/
def PendingRequest.consistent {ρ : Type} (idOf : ρ → RsGxsGroupId) (req : PendingRequest ρ) :
    Prop :=
  req.delivered = req.invocations.map idOf ∧ req.delivered.Nodup

/-! ## Sample wire formats -/

/-- A wire format writing one number per member: the code of the image of the
value under an injection into an encodable type. -/
def MemberCodec.ofInjection {α ε : Type} [Encodable ε] (inj : α → ε) (inv : ε → α) :
    MemberCodec α where
  encode a := [Encodable.encode (inj a)]
  decode
    | [] => none
    | x :: _ => (Encodable.decode x : Option ε).map (fun e => (inv e, 1))

/-- The character codes of a string. -/
def stringToCodes (s : String) : List Nat := s.data.map Char.toNat

/-- The string with the given character codes. -/
def codesToString (l : List Nat) : String := String.mk (l.map Char.ofNat)

/-- Numeric code of a circle type. -/
def circleTypeCode : RsGxsCircleType → Nat
  | RsGxsCircleType.PUBLIC => 1
  | RsGxsCircleType.EXTERNAL => 2
  | RsGxsCircleType.NODES_GROUP => 3

/-- Circle type of a numeric code. -/
def circleTypeOfCode : Nat → RsGxsCircleType
  | 2 => RsGxsCircleType.EXTERNAL
  | 3 => RsGxsCircleType.NODES_GROUP
  | _ => RsGxsCircleType.PUBLIC

/-- Sample wire formats; the two integer formats keep the low 32 and 64 bits. -/
def sampleCodecs : MemberCodecs :=
  { groupMeta := MemberCodec.ofInjection
      (fun m : RsGroupMetaData =>
        (m.mGroupId, stringToCodes m.mGroupName, m.mAuthorId, circleTypeCode m.mCircleType,
          m.mCircleId, m.mSubscribed))
      (fun t => { mGroupId := t.1, mGroupName := codesToString t.2.1, mAuthorId := t.2.2.1,
                  mCircleType := circleTypeOfCode t.2.2.2.1, mCircleId := t.2.2.2.2.1,
                  mSubscribed := t.2.2.2.2.2 })
    msgMeta := MemberCodec.ofInjection
      (fun m : RsMsgMetaData =>
        (m.mGroupId, m.mMsgId, m.mThreadId, m.mParentId, m.mOrigMsgId, m.mAuthorId,
          stringToCodes m.mMsgName))
      (fun t => { mGroupId := t.1, mMsgId := t.2.1, mThreadId := t.2.2.1,
                  mParentId := t.2.2.2.1, mOrigMsgId := t.2.2.2.2.1,
                  mAuthorId := t.2.2.2.2.2.1, mMsgName := codesToString t.2.2.2.2.2.2 })
    string := MemberCodec.ofInjection stringToCodes codesToString
    image := MemberCodec.ofInjection (fun i : RsGxsImage => i.mData) (fun l => { mData := l })
    bool := MemberCodec.ofInjection (fun b : Bool => b) (fun b => b)
    msgIdSet := MemberCodec.ofInjection
      (fun ids : Finset RsGxsMessageId => ids.sort (fun a b => a ≤ b)) (fun l => l.toFinset)
    fileList := MemberCodec.ofInjection
      (fun fs : List RsGxsFile => fs.map (fun f => (stringToCodes f.mName, f.mHash, f.mSize)))
      (fun l => l.map (fun t => { mName := codesToString t.1, mHash := t.2.1, mSize := t.2.2 }))
    uint32 := MemberCodec.ofInjection (fun n : Nat => n % UINT32_RANGE) (fun n => n)
    uint64 := MemberCodec.ofInjection (fun n : Nat => n % UINT64_RANGE) (fun n => n) }

/-- The channel of the scenario as a record. -/
def sampleChannel : RsGxsChannelGroup :=
  { mMeta := { mGroupId := 1, mGroupName := "Tech", mSubscribed := true },
    mDescription := "...", mAutoDownload := true }

/-- A second version of a post with one attached file. -/
def samplePost : RsGxsChannelPost :=
  { mMeta := { mGroupId := 1, mMsgId := 200, mOrigMsgId := 100, mMsgName := "Hello v2" },
    mOlderVersions := {100}, mMsg := "world!",
    mFiles := [{ mName := "a.bin", mHash := 7, mSize := 1024 }], mCount := 1, mSize := 1024 }

/-- The bytes a serialise job writes for a post: its seven members in order. -/
def RsGxsChannelPost.wire (cs : MemberCodecs) (p : RsGxsChannelPost) : List Nat :=
  cs.msgMeta.encode p.mMeta ++ (cs.msgIdSet.encode p.mOlderVersions ++
    (cs.string.encode p.mMsg ++ (cs.fileList.encode p.mFiles ++
      (cs.uint32.encode p.mCount ++ (cs.uint64.encode p.mSize ++
        cs.image.encode p.mThumbnail)))))

/-- The member names and member types of a log of member level calls. -/
def visitedMembers (log : List Visit) : List (String × MemberKind) :=
  log.map (fun v => (v.name, v.kind))

/-! # Theorems -/

/-! ## Serialisation of the two records -/

/-- C4: for every member serialiser, every serialise job, every context and
every group, `RsGxsChannelGroup::serial_process` makes exactly four member
level calls: `mMeta`, `mDescription`, `mImage`, `mAutoDownload`, each once, in
this order, each with the job it was given; the instrumentation changes neither
the resulting context nor the resulting record. -/
theorem channelGroup_serial_process_visits {σ : Type} (ts : RsTypeSerializer σ)
    (j : SerializeJob) (ctx : σ) (log : List Visit) (g : RsGxsChannelGroup) :
    (g.serial_process ts.traced j (ctx, log)).1.2 =
        log ++ [⟨"mMeta", MemberKind.groupMeta, j⟩, ⟨"mDescription", MemberKind.string, j⟩,
                ⟨"mImage", MemberKind.image, j⟩, ⟨"mAutoDownload", MemberKind.bool, j⟩] ∧
      (g.serial_process ts.traced j (ctx, log)).1.1 = (g.serial_process ts j ctx).1 ∧
      (g.serial_process ts.traced j (ctx, log)).2 = (g.serial_process ts j ctx).2 := by
  simp [RsGxsChannelGroup.serial_process, RsTypeSerializer.traced]

/-- C5: for every member serialiser, every serialise job, every context and
every post, `RsGxsChannelPost::serial_process` makes exactly seven member level
calls: `mMeta`, `mOlderVersions`, `mMsg`, `mFiles`, `mCount`, `mSize`,
`mThumbnail`, each once, in this order, each with the job it was given; the
instrumentation changes neither the resulting context nor the resulting
record. -/
theorem channelPost_serial_process_visits {σ : Type} (ts : RsTypeSerializer σ)
    (j : SerializeJob) (ctx : σ) (log : List Visit) (p : RsGxsChannelPost) :
    (p.serial_process ts.traced j (ctx, log)).1.2 =
        log ++ [⟨"mMeta", MemberKind.msgMeta, j⟩, ⟨"mOlderVersions", MemberKind.msgIdSet, j⟩,
                ⟨"mMsg", MemberKind.string, j⟩, ⟨"mFiles", MemberKind.fileList, j⟩,
                ⟨"mCount", MemberKind.uint32, j⟩, ⟨"mSize", MemberKind.uint64, j⟩,
                ⟨"mThumbnail", MemberKind.image, j⟩] ∧
      (p.serial_process ts.traced j (ctx, log)).1.1 = (p.serial_process ts j ctx).1 ∧
      (p.serial_process ts.traced j (ctx, log)).2 = (p.serial_process ts j ctx).2 := by
  simp [RsGxsChannelPost.serial_process, RsTypeSerializer.traced]

/-- C3, as stated, fails: a post built by default construction followed by an
assignment to the public member `mFiles` holds one file of 1024 bytes while
`mCount` and `mSize` are still 0. -/
theorem post_aggregates_can_disagree :
    postWithOneFile.mFiles.length = 1 ∧ postWithOneFile.mCount = 0 ∧
      postWithOneFile.mSize = 0 ∧ ¬ postWithOneFile.aggregatesAgree := by
  decide

/-- C3, amended: the default constructed post has no file, `mCount = 0` and
`mSize = 0`, so its aggregates agree with its files; `serial_process` hands
`mCount` and `mSize` to the member serialiser as fields of their own, so after
it they hold whatever the `uint32` and `uint64` overloads return for the old
values, independently of what the `fileList` overload returns for `mFiles`. -/
theorem post_default_aggregates_agree {σ : Type} (ts : RsTypeSerializer σ)
    (j : SerializeJob) (ctx : σ) (p : RsGxsChannelPost) :
    ({} : RsGxsChannelPost).aggregatesAgree ∧
      (∃ c4 : σ, (p.serial_process ts j ctx).2.mFiles = (ts.fileList j c4 p.mFiles "mFiles").2) ∧
      (∃ c5 : σ, (p.serial_process ts j ctx).2.mCount = (ts.uint32 j c5 p.mCount "mCount").2) ∧
      (∃ c6 : σ, (p.serial_process ts j ctx).2.mSize = (ts.uint64 j c6 p.mSize "mSize").2) := by
  refine ⟨by decide, ⟨_, rfl⟩, ⟨_, rfl⟩, ⟨_, rfl⟩⟩

/-! ## Handling of search results -/

theorem PendingRequest.handle_maxWait {ρ : Type} (idOf : ρ → RsGxsGroupId)
    (req : PendingRequest ρ) (ev : RequestEvent ρ) :
    (req.handle idOf ev).maxWait = req.maxWait := by
  cases ev with
  | result r =>
    simp only [PendingRequest.handle]
    split <;> rfl
  | windowElapsed => rfl

theorem PendingRequest.handleAll_maxWait {ρ : Type} (idOf : ρ → RsGxsGroupId)
    (evs : List (RequestEvent ρ)) (req : PendingRequest ρ) :
    (req.handleAll idOf evs).maxWait = req.maxWait := by
  induction evs generalizing req with
  | nil => rfl
  | cons ev rest ih =>
    simp only [PendingRequest.handleAll]
    rw [ih, PendingRequest.handle_maxWait]

theorem PendingRequest.handle_consistent {ρ : Type} (idOf : ρ → RsGxsGroupId)
    (req : PendingRequest ρ) (ev : RequestEvent ρ) (h : req.consistent idOf) :
    (req.handle idOf ev).consistent idOf := by
  cases ev with
  | result r =>
    simp only [PendingRequest.handle]
    split
    · rename_i hc
      refine ⟨?_, ?_⟩
      · simp [h.1]
      · simp only []
        exact List.Nodup.append h.2 (List.nodup_singleton _) (by simpa using hc.2)
    · exact h
  | windowElapsed => exact h

theorem PendingRequest.handleAll_consistent {ρ : Type} (idOf : ρ → RsGxsGroupId)
    (evs : List (RequestEvent ρ)) (req : PendingRequest ρ) (h : req.consistent idOf) :
    (req.handleAll idOf evs).consistent idOf := by
  induction evs generalizing req with
  | nil => exact h
  | cons ev rest ih => exact ih _ (PendingRequest.handle_consistent idOf req ev h)

theorem PendingRequest.handleAll_results_mem {ρ : Type} (idOf : ρ → RsGxsGroupId)
    (rs : List ρ) (req : PendingRequest ρ) (hopen : req.windowOpen = true)
    (id : RsGxsGroupId) :
    id ∈ (req.handleAll idOf (rs.map RequestEvent.result)).delivered ↔
      id ∈ req.delivered ∨ id ∈ rs.map idOf := by
  induction rs generalizing req with
  | nil => simp [PendingRequest.handleAll]
  | cons r rest ih =>
    simp only [List.map_cons, PendingRequest.handleAll]
    by_cases hc : idOf r ∈ req.delivered
    · have hstep : req.handle idOf (RequestEvent.result r) = req := by
        simp [PendingRequest.handle, hc]
      rw [hstep, ih req hopen]
      constructor
      · rintro (h | h)
        · exact Or.inl h
        · exact Or.inr (List.mem_cons_of_mem _ h)
      · rintro (h | h)
        · exact Or.inl h
        · rcases List.mem_cons.mp h with h | h
          · exact Or.inl (h ▸ hc)
          · exact Or.inr h
    · have hstep : req.handle idOf (RequestEvent.result r) =
          { req with delivered := req.delivered ++ [idOf r],
                     invocations := req.invocations ++ [r] } := by
        simp [PendingRequest.handle, hc, hopen]
      rw [hstep]
      have hrest := ih { req with delivered := req.delivered ++ [idOf r],
                                  invocations := req.invocations ++ [r] } hopen
      rw [hrest]
      simp only [List.mem_append, List.mem_singleton, List.mem_cons]
      tauto

theorem PendingRequest.fresh_count {ρ : Type} (idOf : ρ → RsGxsGroupId) (maxWait : rstime_t)
    (rs : List ρ) (id : RsGxsGroupId) :
    (((PendingRequest.fresh ρ maxWait).handleAll idOf
        (rs.map RequestEvent.result)).invocations.map idOf).count id =
      if id ∈ rs.map idOf then 1 else 0 := by
  have hc := PendingRequest.handleAll_consistent idOf (rs.map RequestEvent.result)
    (PendingRequest.fresh ρ maxWait) ⟨rfl, List.nodup_nil⟩
  have hm := PendingRequest.handleAll_results_mem idOf rs (PendingRequest.fresh ρ maxWait) rfl id
  rw [← hc.1]
  simp only [PendingRequest.fresh, List.not_mem_nil, false_or] at hm
  split
  · rename_i h
    exact List.count_eq_one_of_mem hc.2 (hm.mpr h)
  · rename_i h
    exact List.count_eq_zero_of_not_mem (fun hin => h (hm.mp hin))

/-- C8: for every accepted `turtleSearchRequest` and `turtleChannelRequest` and
every sequence of remote results arriving for the request while its window is
open, `multiCallback` is invoked exactly once for each identifier occurring
among the results (and never for another one); in particular two identical
results cause one invocation. Whatever the events, window expiry included, no
identifier is handed to `multiCallback` twice. -/
theorem search_callback_once_per_identifier (matchString : String)
    (channelId : RsGxsGroupId) (maxWait : Option rstime_t)
    (rs : List RsGxsGroupSummary) (gs : List RsGxsChannelGroup)
    (r : RsGxsGroupSummary) (g : RsGxsChannelGroup) (id : RsGxsGroupId)
    (evs : List (RequestEvent RsGxsGroupSummary))
    (gevs : List (RequestEvent RsGxsChannelGroup)) :
    (∃ req, turtleSearchRequest true matchString maxWait = (true, some req) ∧
      ((req.handleAll RsGxsGroupSummary.mGroupId
          (rs.map RequestEvent.result)).invocations.map RsGxsGroupSummary.mGroupId).count id =
        (if id ∈ rs.map RsGxsGroupSummary.mGroupId then 1 else 0) ∧
      (req.handleAll RsGxsGroupSummary.mGroupId
          [RequestEvent.result r, RequestEvent.result r]).invocations = [r] ∧
      ((req.handleAll RsGxsGroupSummary.mGroupId evs).invocations.map
          RsGxsGroupSummary.mGroupId).Nodup) ∧
    (∃ req, turtleChannelRequest true channelId maxWait = (true, some req) ∧
      ((req.handleAll (fun x => x.mMeta.mGroupId)
          (gs.map RequestEvent.result)).invocations.map (fun x => x.mMeta.mGroupId)).count id =
        (if id ∈ gs.map (fun x => x.mMeta.mGroupId) then 1 else 0) ∧
      (req.handleAll (fun x => x.mMeta.mGroupId)
          [RequestEvent.result g, RequestEvent.result g]).invocations = [g] ∧
      ((req.handleAll (fun x => x.mMeta.mGroupId) gevs).invocations.map
          (fun x => x.mMeta.mGroupId)).Nodup) := by
  refine ⟨⟨_, rfl, PendingRequest.fresh_count _ _ rs id, ?_, ?_⟩,
          ⟨_, rfl, PendingRequest.fresh_count _ _ gs id, ?_, ?_⟩⟩
  · simp [PendingRequest.handleAll, PendingRequest.handle, PendingRequest.fresh]
  · have h := PendingRequest.handleAll_consistent RsGxsGroupSummary.mGroupId evs
      (PendingRequest.fresh RsGxsGroupSummary
        (maxWait.getD turtleSearchRequest.defaultMaxWait)) ⟨rfl, List.nodup_nil⟩
    rw [← h.1]
    exact h.2
  · simp [PendingRequest.handleAll, PendingRequest.handle, PendingRequest.fresh]
  · have h := PendingRequest.handleAll_consistent (fun x : RsGxsChannelGroup => x.mMeta.mGroupId)
      gevs (PendingRequest.fresh RsGxsChannelGroup
        (maxWait.getD turtleChannelRequest.defaultMaxWait)) ⟨rfl, List.nodup_nil⟩
    rw [← h.1]
    exact h.2

/-! ## Default arguments of the search requests -/

/-- C10: the default `maxWait` of `localSearchRequest` is 30 seconds, the
default of `turtleSearchRequest` and of `turtleChannelRequest` is 300 seconds,
so the local window is strictly shorter than both overlay windows; the requests
opened with the argument omitted carry exactly these windows. -/
theorem localSearch_default_window_shorter (isMatch : String → RsGxsChannelGroup → Bool)
    (s : ContentStore) (matchString : String) (channelId : RsGxsGroupId) :
    localSearchRequest.defaultMaxWait = 30 ∧
      turtleSearchRequest.defaultMaxWait = 300 ∧
      turtleChannelRequest.defaultMaxWait = 300 ∧
      localSearchRequest.defaultMaxWait < turtleSearchRequest.defaultMaxWait ∧
      localSearchRequest.defaultMaxWait < turtleChannelRequest.defaultMaxWait ∧
      (turtleSearchRequest true matchString none).2.map PendingRequest.maxWait = some 300 ∧
      (turtleChannelRequest true channelId none).2.map PendingRequest.maxWait = some 300 ∧
      (localSearchRequest isMatch s matchString none).2.maxWait = 30 := by
  refine ⟨rfl, rfl, rfl, by decide, by decide, rfl, rfl, ?_⟩
  simp only [localSearchRequest, PendingRequest.handleAll_maxWait]
  rfl


/-! ## Validation before mutation -/

theorem createChannel_valid_of_accepted (col : Collaborators) (s : ContentStore)
    (channel : RsGxsChannelGroup) (h : createChannel.failure col s channel = none) :
    createChannel.valid col s channel := by
  unfold createChannel.failure at h
  unfold createChannel.valid
  split at h
  · simp at h
  · split at h
    · simp at h
    · split at h
      · simp at h
      · rename_i h1 h2 h3
        refine ⟨h1, by simpa using h2, by simpa using h3⟩

theorem createPost_valid_of_accepted (col : Collaborators) (s : ContentStore)
    (post : RsGxsChannelPost) (h : createPost.failure col s post = none) :
    createPost.valid col s post := by
  unfold createPost.failure at h
  unfold createPost.valid
  split at h
  · simp at h
  · rename_i e he
    split at h
    · simp at h
    · split at h
      · simp at h
      · split at h
        · simp at h
        · split at h
          · simp at h
          · split at h
            · simp at h
            · rename_i h1 h2 h3 h4 h5
              refine ⟨⟨e, he, by simpa using h1⟩, ?_, ?_, h4, h5⟩
              · by_cases h0 : post.mMeta.mOrigMsgId = 0
                · exact Or.inl h0
                · right
                  have := not_and.mp h2 h0
                  cases hf : s.findPost post.mMeta.mGroupId post.mMeta.mOrigMsgId with
                  | none => simp [hf] at this
                  | some p => exact ⟨p, rfl⟩
              · intro f hf
                have h3' : post.mFiles.all (fun f => col.fileHashed f.mHash) = true := by
                  simpa using h3
                exact List.all_eq_true.mp h3' f hf

theorem createComment_valid_of_accepted (col : Collaborators) (s : ContentStore)
    (comment : RsGxsComment) (h : createComment.failure col s comment = none) :
    createComment.valid col s comment := by
  unfold createComment.failure at h
  unfold createComment.valid
  split at h
  · simp at h
  · rename_i e he
    split at h
    · simp at h
    · split at h
      · simp at h
      · split at h
        · simp at h
        · rename_i h1 h2 h3
          refine ⟨⟨e, he⟩, ?_, ?_, h3⟩
          · exact Option.ne_none_iff_exists'.mp (by simpa using h1)
          · exact Option.ne_none_iff_exists'.mp (by simpa using h2)

theorem createVote_valid_of_accepted (col : Collaborators) (s : ContentStore)
    (vote : RsGxsVote) (h : createVote.failure col s vote = none) :
    createVote.valid col s vote := by
  unfold createVote.failure at h
  unfold createVote.valid
  split at h
  · simp at h
  · rename_i e he
    split at h
    · simp at h
    · split at h
      · simp at h
      · split at h
        · simp at h
        · split at h
          · simp at h
          · split at h
            · simp at h
            · rename_i h1 h2 h3 h4 h5
              refine ⟨⟨e, he⟩, ?_, ?_, by simpa using h3, ?_, h5⟩
              · exact Option.ne_none_iff_exists'.mp (by simpa using h1)
              · exact Option.ne_none_iff_exists'.mp (by simpa using h2)
              · intro v hv hcontra
                apply h4
                exact List.any_eq_true.mpr ⟨v, hv, by simpa using hcontra⟩

theorem editChannel_valid_of_accepted (s : ContentStore) (channel : RsGxsChannelGroup)
    (h : editChannel.failure s channel = none) : editChannel.valid s channel := by
  unfold editChannel.failure at h
  unfold editChannel.valid
  split at h
  · simp at h
  · rename_i e he
    split at h
    · simp at h
    · split at h
      · simp at h
      · rename_i h1 h2
        exact ⟨⟨e, he, by simpa using h1⟩, h2⟩

theorem createChannel_rejects (col : Collaborators) (s : ContentStore)
    (channel : RsGxsChannelGroup) (h : ¬ createChannel.valid col s channel) :
    (createChannel col s channel).success = false ∧ (createChannel col s channel).store = s := by
  cases hf : createChannel.failure col s channel with
  | none => exact absurd (createChannel_valid_of_accepted col s channel hf) h
  | some e => simp [createChannel, hf, CreateResult.rejected]

theorem createPost_rejects (col : Collaborators) (s : ContentStore)
    (post : RsGxsChannelPost) (h : ¬ createPost.valid col s post) :
    (createPost col s post).success = false ∧ (createPost col s post).store = s := by
  cases hf : createPost.failure col s post with
  | none => exact absurd (createPost_valid_of_accepted col s post hf) h
  | some e => simp [createPost, hf, CreateResult.rejected]

theorem createComment_rejects (col : Collaborators) (s : ContentStore)
    (comment : RsGxsComment) (h : ¬ createComment.valid col s comment) :
    (createComment col s comment).success = false ∧ (createComment col s comment).store = s := by
  cases hf : createComment.failure col s comment with
  | none => exact absurd (createComment_valid_of_accepted col s comment hf) h
  | some e => simp [createComment, hf, CreateResult.rejected]

theorem createVote_rejects (col : Collaborators) (s : ContentStore)
    (vote : RsGxsVote) (h : ¬ createVote.valid col s vote) :
    (createVote col s vote).success = false ∧ (createVote col s vote).store = s := by
  cases hf : createVote.failure col s vote with
  | none => exact absurd (createVote_valid_of_accepted col s vote hf) h
  | some e => simp [createVote, hf, CreateResult.rejected]

theorem editChannel_rejects (s : ContentStore) (channel : RsGxsChannelGroup)
    (h : ¬ editChannel.valid s channel) :
    (editChannel s channel).1 = false ∧ (editChannel s channel).2 = s := by
  cases hf : editChannel.failure s channel with
  | none => exact absurd (editChannel_valid_of_accepted s channel hf) h
  | some e => simp [editChannel, hf]

/-- Whatever the input, a facade call that returns false leaves the store as it
was. -/
theorem FacadeCall.run_false_store (col : Collaborators) (s : ContentStore) (c : FacadeCall)
    (h : (c.run col s).1 = false) : (c.run col s).2 = s := by
  cases c with
  | createChannel channel =>
    simp only [FacadeCall.run, RetroShare.createChannel] at h ⊢
    split at h <;> simp_all [CreateResult.rejected, CreateResult.committed]
  | createChannelV2 name description thumbnail authorId circleType circleId =>
    simp only [FacadeCall.run, RetroShare.createChannelV2, RetroShare.createChannel] at h ⊢
    split at h <;> simp_all [CreateResult.rejected, CreateResult.committed]
  | createPost post =>
    simp only [FacadeCall.run, RetroShare.createPost] at h ⊢
    split at h <;> simp_all [CreateResult.rejected, CreateResult.committed]
  | createPostV2 channelId title mBody files thumbnail origPostId =>
    simp only [FacadeCall.run, RetroShare.createPostV2, RetroShare.createPost] at h ⊢
    split at h <;> simp_all [CreateResult.rejected, CreateResult.committed]
  | createComment comment =>
    simp only [FacadeCall.run, RetroShare.createComment] at h ⊢
    split at h <;> simp_all [CreateResult.rejected, CreateResult.committed]
  | createCommentV2 channelId threadId parentId authorId comment =>
    simp only [FacadeCall.run, RetroShare.createCommentV2, RetroShare.createComment] at h ⊢
    split at h <;> simp_all [CreateResult.rejected, CreateResult.committed]
  | createVote vote =>
    simp only [FacadeCall.run, RetroShare.createVote] at h ⊢
    split at h <;> simp_all [CreateResult.rejected, CreateResult.committed]
  | createVoteV2 channelId postId commentId authorId vote =>
    simp only [FacadeCall.run, RetroShare.createVoteV2, RetroShare.createVote] at h ⊢
    split at h <;> simp_all [CreateResult.rejected, CreateResult.committed]
  | editChannel channel =>
    simp only [FacadeCall.run, RetroShare.editChannel] at h ⊢
    split at h <;> simp_all

/-- C1: for every store state and every invalid input to `createPost`,
`createPostV2`, `createComment`, `createCommentV2`, `createVote`,
`createVoteV2` or `editChannel` (and to channel creation as well), the call
returns false and the store after the call equals the store before it. -/
theorem invalid_call_leaves_store (col : Collaborators) (s : ContentStore) (c : FacadeCall)
    (h : ¬ c.valid col s) : (c.run col s).1 = false ∧ (c.run col s).2 = s := by
  cases c with
  | createChannel channel => exact createChannel_rejects col s channel h
  | createChannelV2 name description thumbnail authorId circleType circleId =>
    exact createChannel_rejects col s _ h
  | createPost post => exact createPost_rejects col s post h
  | createPostV2 channelId title mBody files thumbnail origPostId =>
    exact createPost_rejects col s _ h
  | createComment comment => exact createComment_rejects col s comment h
  | createCommentV2 channelId threadId parentId authorId comment =>
    exact createComment_rejects col s _ h
  | createVote vote => exact createVote_rejects col s vote h
  | createVoteV2 channelId postId commentId authorId vote =>
    exact createVote_rejects col s _ h
  | editChannel channel => exact editChannel_rejects s channel h


theorem sampleStore_check :
    sampleStore.channels.length = 1 ∧ sampleStore.posts.map (fun p => p.mMeta.mMsgId) = [100, 200] ∧
      sampleStore.comments.map (fun c => c.mMeta.mMsgId) = [1100, 2100] := by
  decide


/-- C1, witness: posting to the channel 7 of `foreignStore`, for which no
publish key is held, is an invalid call; it returns false and the store is
unchanged. -/
theorem invalid_call_leaves_store_witness :
    ¬ (FacadeCall.createPostV2 7 "Hello" "world" [] {} 0).valid sampleCollaborators foreignStore ∧
      ((FacadeCall.createPostV2 7 "Hello" "world" [] {} 0).run sampleCollaborators
          foreignStore).1 = false ∧
      ((FacadeCall.createPostV2 7 "Hello" "world" [] {} 0).run sampleCollaborators
          foreignStore).2 = foreignStore :=
  have hinvalid : ¬ (FacadeCall.createPostV2 7 "Hello" "world" [] {} 0).valid
      sampleCollaborators foreignStore := by
    intro h
    obtain ⟨⟨e, he, hk⟩, _⟩ := h
    have he' : e = { group := { mMeta := { mGroupId := 7, mGroupName := "News" } },
                     adminKey := false, publishKey := false } := by
      have : foreignStore.findChannel 7 = some
          { group := { mMeta := { mGroupId := 7, mGroupName := "News" } },
            adminKey := false, publishKey := false } := by decide
      exact (Option.some.inj (he.symm.trans this))
    rw [he'] at hk
    exact absurd hk (by decide)
  ⟨hinvalid, invalid_call_leaves_store sampleCollaborators foreignStore _ hinvalid⟩

/-! ## Version linkage -/

theorem findChannel_posts (s : ContentStore) (posts : List RsGxsChannelPost) (g : RsGxsGroupId) :
    ({ s with posts := posts } : ContentStore).findChannel g = s.findChannel g := rfl

/-- C2: for every store, every channel and every existing post `P` of it (an
actual, non blank identifier), a successful `createPostV2` with
`origPostId = P` stores a new post whose identifier is returned, was not
assigned before, and whose `mOlderVersions` contains `P`; afterwards
`getChannelContent` asked for `P` succeeds and still returns the old post. -/
theorem createPostV2_version_linkage (col : Collaborators) (s : ContentStore)
    (channelId : RsGxsGroupId) (title mBody : String) (files : List RsGxsFile)
    (thumbnail : RsGxsImage) (P : RsGxsMessageId) (old : RsGxsChannelPost)
    (hP : P ≠ 0) (hold : old ∈ s.posts) (hchannel : old.mMeta.mGroupId = channelId)
    (hid : old.mMeta.mMsgId = P)
    (hsuccess :
      (createPostV2 col s channelId title mBody files thumbnail P).success = true) :
    ∃ new : RsGxsChannelPost,
      new ∈ (createPostV2 col s channelId title mBody files thumbnail P).store.posts ∧
      (createPostV2 col s channelId title mBody files thumbnail P).newId =
        some new.mMeta.mMsgId ∧
      new.mMeta.mMsgId ∉ s.msgIds ∧
      new.mMeta.mGroupId = channelId ∧
      P ∈ new.mOlderVersions ∧
      (getChannelContent (createPostV2 col s channelId title mBody files thumbnail P).store
          channelId {P}).1 = true ∧
      old ∈ (getChannelContent (createPostV2 col s channelId title mBody files thumbnail P).store
          channelId {P}).2.1 := by
  cases hf : createPost.failure col s (postOfArguments channelId title mBody files thumbnail P) with
  | some e =>
    simp [createPostV2, createPost, hf, CreateResult.rejected] at hsuccess
  | none =>
    have hvalid := createPost_valid_of_accepted col s _ hf
    obtain ⟨⟨e, he, _⟩, _, _, _, hfresh⟩ := hvalid
    have he' : s.findChannel channelId = some e := he
    refine ⟨stampPost col (postOfArguments channelId title mBody files thumbnail P), ?_, ?_, ?_,
      ?_, ?_, ?_, ?_⟩
    · simp [createPostV2, createPost, hf, CreateResult.committed]
    · simp [createPostV2, createPost, hf, CreateResult.committed]
    · exact hfresh
    · rfl
    · simp [stampPost, postOfArguments, hP]
    · simp [createPostV2, createPost, hf, CreateResult.committed, getChannelContent,
        findChannel_posts, he']
    · simp [createPostV2, createPost, hf, CreateResult.committed, getChannelContent,
        findChannel_posts, he', List.mem_filter, hold, hchannel, hid]

/-- C2, witness: in the store holding the channel 1 and its post 100, a second
version citing the post 100 is created; it is the post 200, it lists 100 among
its older versions, and the post 100 is still returned. -/
theorem createPostV2_version_linkage_witness :
    firstVersion ∈ firstVersionStore.posts ∧
    (createPostV2 sampleCollaborators firstVersionStore 1 "Hello v2" "world!" [] {}
        100).success = true ∧
    ∃ new : RsGxsChannelPost,
      new ∈ (createPostV2 sampleCollaborators firstVersionStore 1 "Hello v2" "world!" [] {}
        100).store.posts ∧
      (createPostV2 sampleCollaborators firstVersionStore 1 "Hello v2" "world!" [] {}
        100).newId = some new.mMeta.mMsgId ∧
      new.mMeta.mMsgId ∉ firstVersionStore.msgIds ∧
      new.mMeta.mGroupId = 1 ∧
      100 ∈ new.mOlderVersions ∧
      (getChannelContent (createPostV2 sampleCollaborators firstVersionStore 1 "Hello v2"
        "world!" [] {} 100).store 1 {100}).1 = true ∧
      firstVersion ∈
        (getChannelContent (createPostV2 sampleCollaborators firstVersionStore 1 "Hello v2"
          "world!" [] {} 100).store 1 {100}).2.1 :=
  ⟨by decide, by decide,
   createPostV2_version_linkage sampleCollaborators firstVersionStore 1 "Hello v2" "world!" []
     {} 100 firstVersion (by decide) (by decide) (by decide) (by decide) (by decide)⟩

/-! ## The permission gate of `editChannel` -/

/-- C7, as stated, fails: in `foreignStore` the channel 7 exists and is not
administered while the channel 8 does not exist; `editChannel` rejects both
edits for different causes, yet what it hands back to the caller is the same,
the boolean false and the unchanged store. -/
theorem editChannel_errors_not_distinguishable :
    (∃ e, foreignStore.findChannel editOfForeignChannel.mMeta.mGroupId = some e ∧
        e.adminKey = false) ∧
      foreignStore.findChannel editOfMissingChannel.mMeta.mGroupId = none ∧
      editChannel.failure foreignStore editOfForeignChannel = some FacadeError.PermissionError ∧
      editChannel.failure foreignStore editOfMissingChannel = some FacadeError.NotFoundError ∧
      editChannel foreignStore editOfForeignChannel = (false, foreignStore) ∧
      editChannel foreignStore editOfMissingChannel = (false, foreignStore) ∧
      ¬ ((editChannel foreignStore editOfForeignChannel).1 ≠
          (editChannel foreignStore editOfMissingChannel).1) := by
  refine ⟨⟨{ group := { mMeta := { mGroupId := 7, mGroupName := "News" } },
             adminKey := false, publishKey := false }, by decide, by decide⟩,
    by decide, by decide, by decide, by decide, by decide, by decide⟩

/-- C7, amended: for every store and every channel of it the caller does not
administer, `editChannel` returns false and the store is unchanged; the check
that rejects is the permission check, not the not-found check that rejects an
edit of a channel absent from the local view, but the boolean returned is the
same false in both cases. -/
theorem editChannel_permission_gate (s : ContentStore) (channel missing : RsGxsChannelGroup)
    (e : ChannelEntry) (hfound : s.findChannel channel.mMeta.mGroupId = some e)
    (hadmin : e.adminKey = false) (hmissing : s.findChannel missing.mMeta.mGroupId = none) :
    editChannel s channel = (false, s) ∧
      editChannel.failure s channel = some FacadeError.PermissionError ∧
      editChannel.failure s missing = some FacadeError.NotFoundError ∧
      editChannel s missing = (false, s) ∧
      (editChannel s channel).1 = (editChannel s missing).1 := by
  have h1 : editChannel.failure s channel = some FacadeError.PermissionError := by
    simp [editChannel.failure, hfound, hadmin]
  have h2 : editChannel.failure s missing = some FacadeError.NotFoundError := by
    simp [editChannel.failure, hmissing]
  refine ⟨?_, h1, h2, ?_, ?_⟩ <;> simp [editChannel, h1, h2]

/-- C7, amended, witness: the two edits against `foreignStore`. -/
theorem editChannel_permission_gate_witness :
    editChannel foreignStore editOfForeignChannel = (false, foreignStore) ∧
      editChannel.failure foreignStore editOfForeignChannel =
        some FacadeError.PermissionError ∧
      editChannel.failure foreignStore editOfMissingChannel = some FacadeError.NotFoundError ∧
      editChannel foreignStore editOfMissingChannel = (false, foreignStore) ∧
      (editChannel foreignStore editOfForeignChannel).1 =
        (editChannel foreignStore editOfMissingChannel).1 :=
  editChannel_permission_gate foreignStore editOfForeignChannel editOfMissingChannel
    { group := { mMeta := { mGroupId := 7, mGroupName := "News" } },
      adminKey := false, publishKey := false }
    (by decide) (by decide) (by decide)

/-! ## Shape of the mutating declarations -/

/-- C6, as stated, fails: `editChannel` is a mutating method of the interface
that returns a boolean but has no `errorMessage` output, and the mutating method
`setMessageReadStatus` returns no boolean at all. -/
theorem mutating_method_without_errorMessage :
    RsGxsChannels.editChannelDecl ∈ RsGxsChannels.methods ∧
      RsGxsChannels.editChannelDecl.mutating = true ∧
      RsGxsChannels.editChannelDecl.hasErrorMessage = false ∧
      RsGxsChannels.editChannelDecl.reportsError = false ∧
      RsGxsChannels.setMessageReadStatusDecl ∈ RsGxsChannels.methods ∧
      RsGxsChannels.setMessageReadStatusDecl.mutating = true ∧
      RsGxsChannels.setMessageReadStatusDecl.returns = ReturnType.void ∧
      RsGxsChannels.setMessageReadStatusDecl.reportsError = false := by
  decide

/-- C6, amended: among the declared methods, the four creation methods
`createChannelV2`, `createCommentV2`, `createPostV2`, `createVoteV2` return a
boolean and have both an `errorMessage` output and an output for the created
identifier, and they are the only methods with an `errorMessage` output; every
other mutating method returns only a boolean, except `setMessageReadStatus`,
which returns nothing. In the modelled facade a creation writes the identifier
and no error message when it succeeds, an error message and no identifier when
it fails. -/
theorem creation_methods_report_errors (col : Collaborators) (s : ContentStore)
    (name description title mBody comment : String) (thumbnail : RsGxsImage)
    (authorId : RsGxsId) (circleType : RsGxsCircleType) (circleId : RsGxsCircleId)
    (channelId : RsGxsGroupId) (files : List RsGxsFile)
    (origPostId threadId parentId : RsGxsMessageId) (vote : RsGxsVoteType) :
    RsGxsChannels.methods.all (fun m =>
        (!(RsGxsChannels.creationsV2.contains m.name) ||
          (m.reportsError && m.hasIdOutput)) &&
        (!m.hasErrorMessage || RsGxsChannels.creationsV2.contains m.name) &&
        (!(m.mutating && !(RsGxsChannels.creationsV2.contains m.name)) ||
          (decide (m.returns = ReturnType.bool) ||
            decide (m = RsGxsChannels.setMessageReadStatusDecl)))) = true ∧
      RsGxsChannels.creationsV2.all
        (fun n => RsGxsChannels.methods.any (fun m => m.name == n)) = true ∧
      (createChannelV2 col s name description thumbnail authorId circleType
        circleId).outputsConsistent ∧
      (createPostV2 col s channelId title mBody files thumbnail origPostId).outputsConsistent ∧
      (createCommentV2 col s channelId threadId parentId authorId comment).outputsConsistent ∧
      (createVoteV2 col s channelId threadId parentId authorId vote).outputsConsistent := by
  refine ⟨by decide, by decide, ?_, ?_, ?_, ?_⟩
  · simp only [createChannelV2, createChannel]
    split <;> simp [CreateResult.outputsConsistent, CreateResult.rejected, CreateResult.committed]
  · simp only [createPostV2, createPost]
    split <;> simp [CreateResult.outputsConsistent, CreateResult.rejected, CreateResult.committed]
  · simp only [createCommentV2, createComment]
    split <;> simp [CreateResult.outputsConsistent, CreateResult.rejected, CreateResult.committed]
  · simp only [createVoteV2, createVote]
    split <;> simp [CreateResult.outputsConsistent, CreateResult.rejected, CreateResult.committed]


/-! ## Comment trees -/

theorem stepsToThread_le_fuel (comments : List RsGxsComment) (thread : RsGxsMessageId) :
    ∀ (fuel : Nat) (cur : RsGxsMessageId) (k : Nat),
      stepsToThread comments thread fuel cur = some k → k ≤ fuel := by
  intro fuel
  induction fuel with
  | zero =>
    intro cur k h
    simp only [stepsToThread] at h
    split at h
    · simp at h; omega
    · simp at h
  | succ n ih =>
    intro cur k h
    simp only [stepsToThread] at h
    split at h
    · simp at h; omega
    · split at h
      · simp at h
      · split at h
        · rcases Option.map_eq_some'.mp h with ⟨k', hk', rfl⟩
          have := ih _ _ hk'
          omega
        · simp at h

theorem stepsToThread_mono (comments : List RsGxsComment) (thread : RsGxsMessageId) :
    ∀ (fuel : Nat) (cur : RsGxsMessageId) (k : Nat),
      stepsToThread comments thread fuel cur = some k →
      ∀ more, fuel ≤ more → stepsToThread comments thread more cur = some k := by
  intro fuel
  induction fuel with
  | zero =>
    intro cur k h more _
    simp only [stepsToThread] at h
    split at h
    · rename_i hc
      cases more <;> simp [stepsToThread, hc] at h ⊢ <;> exact h
    · simp at h
  | succ n ih =>
    intro cur k h more hle
    obtain ⟨m, rfl⟩ : ∃ m, more = m + 1 := ⟨more - 1, by omega⟩
    simp only [stepsToThread] at h ⊢
    split at h
    · rename_i hc
      simp [hc] at h ⊢
      exact h
    · rename_i hc
      simp only [hc, if_false]
      split at h
      · simp at h
      · rename_i c hfind
        split at h
        · rename_i ht
          rcases Option.map_eq_some'.mp h with ⟨k', hk', rfl⟩
          simp [ht, ih _ _ hk' m (by omega)]
        · simp at h

theorem findComment_append (comments : List RsGxsComment) (extra : RsGxsComment)
    (m : RsGxsMessageId) (c : RsGxsComment) (h : findComment comments m = some c) :
    findComment (comments ++ [extra]) m = some c := by
  simp [findComment, List.find?_append] at h ⊢
  simp [h]

theorem stepsToThread_append (comments : List RsGxsComment) (extra : RsGxsComment)
    (thread : RsGxsMessageId) :
    ∀ (fuel : Nat) (cur : RsGxsMessageId) (k : Nat),
      stepsToThread comments thread fuel cur = some k →
      stepsToThread (comments ++ [extra]) thread fuel cur = some k := by
  intro fuel
  induction fuel with
  | zero =>
    intro cur k h
    simpa [stepsToThread] using h
  | succ n ih =>
    intro cur k h
    simp only [stepsToThread] at h ⊢
    split at h
    · rename_i hc
      simp [hc] at h ⊢
      exact h
    · rename_i hc
      simp only [hc, if_false]
      split at h
      · simp at h
      · rename_i c hfind
        rw [findComment_append comments extra cur c hfind]
        simp only []
        split at h
        · rename_i ht
          rcases Option.map_eq_some'.mp h with ⟨k', hk', rfl⟩
          simp [ht, ih _ _ hk']
        · simp at h

theorem stepsToThread_start (comments : List RsGxsComment) (thread : RsGxsMessageId)
    (fuel : Nat) (cur : RsGxsMessageId) (k : Nat)
    (h : stepsToThread comments thread fuel cur = some k) :
    cur = thread ∨ ∃ c, findComment comments cur = some c ∧ c.mMeta.mThreadId = thread := by
  by_cases hc : cur = thread
  · exact Or.inl hc
  · right
    cases fuel with
    | zero => simp [stepsToThread, hc] at h
    | succ n =>
      simp only [stepsToThread, hc, if_false] at h
      split at h
      · simp at h
      · rename_i c hfind
        split at h
        · rename_i ht
          exact ⟨c, hfind, ht⟩
        · simp at h

theorem findComment_mem (comments : List RsGxsComment) (m : RsGxsMessageId) (c : RsGxsComment)
    (h : findComment comments m = some c) : c ∈ comments ∧ c.mMeta.mMsgId = m := by
  unfold findComment at h
  refine ⟨List.mem_of_find?_eq_some h, ?_⟩
  have := List.find?_some h
  simpa using this


theorem commentsWellFounded_append (comments : List RsGxsComment) (extra : RsGxsComment)
    (hinv : commentsWellFounded comments)
    (hparent : extra.mMeta.mParentId = extra.mMeta.mThreadId ∨
      ∃ c, findComment comments extra.mMeta.mParentId = some c ∧
        c.mMeta.mThreadId = extra.mMeta.mThreadId) :
    commentsWellFounded (comments ++ [extra]) := by
  intro i hi
  simp only [List.length_append, List.length_singleton] at hi
  by_cases hlt : i < comments.length
  · have hget : (comments ++ [extra]).get ⟨i, by simp; omega⟩ = comments.get ⟨i, hlt⟩ := by
      simp [List.getElem_append_left hlt]
    rw [hget]
    obtain ⟨k, hk⟩ := hinv i hlt
    exact ⟨k, stepsToThread_append comments extra _ _ _ _ hk⟩
  · have hi' : i = comments.length := by omega
    subst hi'
    have hget : (comments ++ [extra]).get ⟨comments.length, by simp⟩ = extra := by
      simp
    rw [hget]
    by_cases hc : extra.mMeta.mParentId = extra.mMeta.mThreadId
    · refine ⟨0, ?_⟩
      cases comments.length <;> simp [stepsToThread, hc]
    · rcases hparent with h | ⟨c, hfind, hthread⟩
      · exact absurd h hc
      · obtain ⟨hmem, _⟩ := findComment_mem comments _ c hfind
        obtain ⟨j, hj, hjc⟩ := List.getElem_of_mem hmem
        obtain ⟨k, hk⟩ := hinv j hj
        have hk' : stepsToThread comments c.mMeta.mThreadId j c.mMeta.mParentId = some k := by
          have : comments.get ⟨j, hj⟩ = c := by simpa using hjc
          rw [this] at hk
          exact hk
        have hk2 := stepsToThread_mono comments _ j _ k hk' (comments.length - 1) (by omega)
        refine ⟨k + 1, stepsToThread_append comments extra _ _ _ _ ?_⟩
        obtain ⟨m, hm⟩ : ∃ m, comments.length = m + 1 := ⟨comments.length - 1, by omega⟩
        rw [hm] at hk2 ⊢
        simp only [Nat.add_sub_cancel] at hk2
        simp [stepsToThread, hc, hfind, hthread]
        rw [hthread] at hk2
        exact hk2

theorem createComment_wellFounded (col : Collaborators) (s : ContentStore)
    (comment : RsGxsComment) (hinv : commentsWellFounded s.comments) :
    commentsWellFounded (createComment col s comment).store.comments := by
  cases hf : createComment.failure col s comment with
  | some e => simpa [createComment, hf, CreateResult.rejected] using hinv
  | none =>
    obtain ⟨_, _, ⟨k, hk⟩, _⟩ := createComment_valid_of_accepted col s comment hf
    have hstart := stepsToThread_start _ _ _ _ _ hk
    simp only [createComment, hf, CreateResult.committed]
    exact commentsWellFounded_append s.comments (stampComment col comment) hinv hstart

theorem FacadeCall.run_wellFounded (col : Collaborators) (s : ContentStore) (c : FacadeCall)
    (hinv : commentsWellFounded s.comments) : commentsWellFounded (c.run col s).2.comments := by
  cases c with
  | createChannel channel =>
    simp only [FacadeCall.run, RetroShare.createChannel]
    split <;> simpa [CreateResult.rejected, CreateResult.committed] using hinv
  | createChannelV2 name description thumbnail authorId circleType circleId =>
    simp only [FacadeCall.run, RetroShare.createChannelV2, RetroShare.createChannel]
    split <;> simpa [CreateResult.rejected, CreateResult.committed] using hinv
  | createPost post =>
    simp only [FacadeCall.run, RetroShare.createPost]
    split <;> simpa [CreateResult.rejected, CreateResult.committed] using hinv
  | createPostV2 channelId title mBody files thumbnail origPostId =>
    simp only [FacadeCall.run, RetroShare.createPostV2, RetroShare.createPost]
    split <;> simpa [CreateResult.rejected, CreateResult.committed] using hinv
  | createComment comment => exact createComment_wellFounded col s comment hinv
  | createCommentV2 channelId threadId parentId authorId comment =>
    exact createComment_wellFounded col s _ hinv
  | createVote vote =>
    simp only [FacadeCall.run, RetroShare.createVote]
    split <;> simpa [CreateResult.rejected, CreateResult.committed] using hinv
  | createVoteV2 channelId postId commentId authorId vote =>
    simp only [FacadeCall.run, RetroShare.createVoteV2, RetroShare.createVote]
    split <;> simpa [CreateResult.rejected, CreateResult.committed] using hinv
  | editChannel channel =>
    simp only [FacadeCall.run, RetroShare.editChannel]
    split <;> simpa using hinv

theorem runCalls_wellFounded (col : Collaborators) (calls : List FacadeCall) :
    ∀ s : ContentStore, commentsWellFounded s.comments →
      commentsWellFounded (runCalls col s calls).comments := by
  induction calls with
  | nil => intro s h; exact h
  | cons c rest ih =>
    intro s h
    exact ih _ (FacadeCall.run_wellFounded col s c h)

theorem ancestors_known (comments : List RsGxsComment) (thread : RsGxsMessageId) :
    ∀ (n fuel : Nat) (cur : RsGxsMessageId) (k : Nat),
      stepsToThread comments thread fuel cur = some k →
      ∀ x ∈ ancestors comments thread n cur,
        x = thread ∨ ∃ c ∈ comments, c.mMeta.mMsgId = x := by
  intro n
  induction n with
  | zero =>
    intro fuel cur k h x hx
    simp only [ancestors, List.mem_singleton] at hx
    subst hx
    rcases stepsToThread_start _ _ _ _ _ h with h1 | ⟨c, hfind, _⟩
    · exact Or.inl h1
    · exact Or.inr ⟨c, findComment_mem _ _ _ hfind⟩
  | succ n ih =>
    intro fuel cur k h x hx
    have hcur : cur = thread ∨ ∃ c ∈ comments, c.mMeta.mMsgId = cur := by
      rcases stepsToThread_start _ _ _ _ _ h with h1 | ⟨c, hfind, _⟩
      · exact Or.inl h1
      · exact Or.inr ⟨c, findComment_mem _ _ _ hfind⟩
    simp only [ancestors] at hx
    split at hx
    · simp only [List.mem_singleton] at hx
      exact hx ▸ hcur
    · rename_i hne
      split at hx
      · simp only [List.mem_singleton] at hx
        exact hx ▸ hcur
      · rename_i c hfind
        split at hx
        · rename_i ht
          rcases List.mem_cons.mp hx with hx | hx
          · exact hx ▸ hcur
          · cases fuel with
            | zero => simp [stepsToThread, hne] at h
            | succ f =>
              simp only [stepsToThread, hne, if_false, hfind, ht, if_true] at h
              rcases Option.map_eq_some'.mp h with ⟨k', hk', _⟩
              exact ih f _ k' hk' x hx
        · simp only [List.mem_singleton] at hx
          exact hx ▸ hcur

theorem findPost_msgIds (s : ContentStore) (g : RsGxsGroupId) (m : RsGxsMessageId)
    (p : RsGxsChannelPost) (h : s.findPost g m = some p) : m ∈ s.msgIds := by
  unfold ContentStore.findPost at h
  have hmem := List.mem_of_find?_eq_some h
  have hp := List.find?_some h
  simp only [decide_eq_true_eq] at hp
  simp only [ContentStore.msgIds, List.mem_append, List.mem_map]
  exact Or.inl (Or.inl ⟨p, hmem, hp.2⟩)


/-- C9: in every store built from the empty store by calls of the facade, every
stored comment reaches its `threadId` by following `parentId` links, in a number
of steps that is at most the number of stored items; and in every store, a
`createCommentV2` call whose new comment would be found among the ancestors of
its own `parentId` (the link would close a cycle) returns false and stores
nothing. -/
theorem comment_tree_acyclic (col : Collaborators) (calls : List FacadeCall)
    (c : RsGxsComment) (s : ContentStore) (channelId : RsGxsGroupId)
    (threadId parentId : RsGxsMessageId) (authorId : RsGxsId) (comment : String) (n : Nat) :
    (c ∈ (runCalls col {} calls).comments →
      ∃ k, stepsToThread (runCalls col {} calls).comments c.mMeta.mThreadId
            ((runCalls col {} calls).size - 1) c.mMeta.mParentId = some k ∧
          k + 1 ≤ (runCalls col {} calls).size) ∧
    ((stampComment col
          { mMeta := { mGroupId := channelId, mThreadId := threadId, mParentId := parentId,
                       mAuthorId := authorId },
            mComment := comment }).mMeta.mMsgId ∈ ancestors s.comments threadId n parentId →
      (createCommentV2 col s channelId threadId parentId authorId comment).success = false ∧
        (createCommentV2 col s channelId threadId parentId authorId comment).store = s) := by
  constructor
  · intro hc
    have hinv := runCalls_wellFounded col calls {} (by intro i hi; simp at hi)
    obtain ⟨i, hi, hic⟩ := List.getElem_of_mem hc
    obtain ⟨k, hk⟩ := hinv i hi
    have hget : (runCalls col {} calls).comments.get ⟨i, hi⟩ = c := by simpa using hic
    rw [hget] at hk
    have hle := stepsToThread_le_fuel _ _ _ _ _ hk
    have hsize : (runCalls col {} calls).comments.length ≤ (runCalls col {} calls).size := by
      simp only [ContentStore.size]; omega
    exact ⟨k, stepsToThread_mono _ _ _ _ _ hk _ (by omega), by omega⟩
  · intro hcycle
    cases hf : createComment.failure col s
        { mMeta := { mGroupId := channelId, mThreadId := threadId, mParentId := parentId,
                     mAuthorId := authorId },
          mComment := comment } with
    | some e => simp [createCommentV2, createComment, hf, CreateResult.rejected]
    | none =>
      exfalso
      obtain ⟨_, ⟨p, hp⟩, ⟨k, hk⟩, hfresh⟩ := createComment_valid_of_accepted col s _ hf
      apply hfresh
      rcases ancestors_known s.comments threadId n _ _ _ hk _ hcycle with h | ⟨x, hx, hxid⟩
      · rw [h]
        exact findPost_msgIds s _ _ p hp
      · simp only [ContentStore.msgIds, List.mem_append, List.mem_map]
        exact Or.inl (Or.inr ⟨x, hx, hxid⟩)

/-- C9, witness: the reply of the scenario reaches its thread in two steps, and
with colliding identifiers a reply to the comment 1100 that would itself be the
comment 1100 is rejected. -/
theorem comment_tree_acyclic_witness :
    (sampleReply ∈ (runCalls collidingCollaborators {} sampleCalls).comments ∧
      ∃ k, stepsToThread (runCalls collidingCollaborators {} sampleCalls).comments
            sampleReply.mMeta.mThreadId
            ((runCalls collidingCollaborators {} sampleCalls).size - 1)
            sampleReply.mMeta.mParentId = some k ∧
          k + 1 ≤ (runCalls collidingCollaborators {} sampleCalls).size) ∧
    ((stampComment collidingCollaborators
          { mMeta := { mGroupId := 1, mThreadId := 100, mParentId := 1100, mAuthorId := 9 },
            mComment := "again" }).mMeta.mMsgId ∈ ancestors sampleStore.comments 100 3 1100 ∧
      (createCommentV2 collidingCollaborators sampleStore 1 100 1100 9 "again").success = false ∧
        (createCommentV2 collidingCollaborators sampleStore 1 100 1100 9 "again").store
          = sampleStore) :=
  ⟨⟨by decide,
    (comment_tree_acyclic collidingCollaborators sampleCalls sampleReply sampleStore 1 100 1100 9
      "again" 3).1 (by decide)⟩,
   ⟨by decide,
    (comment_tree_acyclic collidingCollaborators sampleCalls sampleReply sampleStore 1 100 1100 9
      "again" 3).2 (by decide)⟩⟩


/-! ## Round trip of the two records -/

theorem MemberCodec.process_serialize {α : Type} (c : MemberCodec α) (ctx : SerializeContext)
    (member : α) (name : String) (hok : ctx.mOk = true) :
    c.process SerializeJob.SERIALIZE ctx member name =
      ({ mData := ctx.mData ++ c.encode member,
         mOffset := ctx.mOffset + (c.encode member).length, mOk := true }, member) := by
  cases ctx with
  | mk d o ok =>
    simp only at hok
    subst hok
    simp [MemberCodec.process]

theorem MemberCodec.process_deserialize {α : Type} (c : MemberCodec α) (dom : α → Prop)
    (hc : c.roundTripsOn dom) (data : List Nat) (offset : Nat) (before after : List Nat)
    (value old : α) (name : String) (hv : dom value)
    (hd : data = before ++ (c.encode value ++ after)) (ho : offset = before.length) :
    c.process SerializeJob.DESERIALIZE
        { mData := data, mOffset := offset, mOk := true } old name =
      ({ mData := data, mOffset := offset + (c.encode value).length, mOk := true },
        value) := by
  have hdrop : data.drop offset = c.encode value ++ after := by
    rw [hd, ho, List.drop_left]
  simp [MemberCodec.process, hdrop, hc value after hv]

theorem MemberCodec.ofInjection_roundTripsOn {α ε : Type} [Encodable ε] (inj : α → ε)
    (inv : ε → α) (dom : α → Prop) (h : ∀ a, dom a → inv (inj a) = a) :
    (MemberCodec.ofInjection inj inv).roundTripsOn dom := by
  intro a rest ha
  simp [MemberCodec.ofInjection, h a ha]

theorem codesToString_stringToCodes (s : String) : codesToString (stringToCodes s) = s := by
  cases s with
  | mk cs =>
    simp only [codesToString, stringToCodes, List.map_map]
    congr 1
    induction cs with
    | nil => rfl
    | cons c rest ih => simp [ih, Char.ofNat_toNat]

theorem circleTypeOfCode_circleTypeCode (t : RsGxsCircleType) :
    circleTypeOfCode (circleTypeCode t) = t := by
  cases t <;> rfl

theorem sampleCodecs_roundTrips : sampleCodecs.roundTrips := by
  refine ⟨?_, ?_, ?_, ?_, ?_, ?_, ?_, ?_, ?_⟩
  · apply MemberCodec.ofInjection_roundTripsOn
    intro m _
    cases m
    simp [codesToString_stringToCodes, circleTypeOfCode_circleTypeCode]
  · apply MemberCodec.ofInjection_roundTripsOn
    intro m _
    cases m
    simp [codesToString_stringToCodes]
  · apply MemberCodec.ofInjection_roundTripsOn
    intro m _
    exact codesToString_stringToCodes m
  · apply MemberCodec.ofInjection_roundTripsOn
    intro m _
    rfl
  · apply MemberCodec.ofInjection_roundTripsOn
    intro m _
    rfl
  · apply MemberCodec.ofInjection_roundTripsOn
    intro m _
    simp
  · apply MemberCodec.ofInjection_roundTripsOn
    intro m _
    induction m with
    | nil => rfl
    | cons f rest ih =>
      cases f
      simp only [List.map_cons, List.map_map] at ih ⊢
      simp [codesToString_stringToCodes, ih]
  · apply MemberCodec.ofInjection_roundTripsOn
    intro m hm
    exact Nat.mod_eq_of_lt hm
  · apply MemberCodec.ofInjection_roundTripsOn
    intro m hm
    exact Nat.mod_eq_of_lt hm

/-- Serialising a group into a sound context appends the bytes of its four
members, in order, and leaves the group as it is. -/
theorem RsGxsChannelGroup.group_serialize_appends (cs : MemberCodecs) (ctx : SerializeContext)
    (g : RsGxsChannelGroup) (hok : ctx.mOk = true) :
    g.serial_process cs.serializer SerializeJob.SERIALIZE ctx =
      ({ mData := ctx.mData ++ (cs.groupMeta.encode g.mMeta ++ (cs.string.encode g.mDescription ++
            (cs.image.encode g.mImage ++ cs.bool.encode g.mAutoDownload))),
         mOffset := ctx.mOffset + (cs.groupMeta.encode g.mMeta ++
            (cs.string.encode g.mDescription ++
              (cs.image.encode g.mImage ++ cs.bool.encode g.mAutoDownload))).length,
         mOk := true }, g) := by
  simp only [RsGxsChannelGroup.serial_process, MemberCodecs.serializer]
  rw [MemberCodec.process_serialize _ _ _ _ hok]
  rw [MemberCodec.process_serialize _ _ _ _ rfl]
  rw [MemberCodec.process_serialize _ _ _ _ rfl]
  rw [MemberCodec.process_serialize _ _ _ _ rfl]
  simp [List.append_assoc, Nat.add_assoc]

/-- Deserialising a group at the place of a buffer where a group `g` was
written reads `g` back, whatever record is deserialised into, and moves the
offset past the bytes of `g`. -/
theorem RsGxsChannelGroup.group_deserialize_reads (cs : MemberCodecs) (h : cs.roundTrips)
    (before after : List Nat) (g into : RsGxsChannelGroup) :
    into.serial_process cs.serializer SerializeJob.DESERIALIZE
        { mData := before ++ (cs.groupMeta.encode g.mMeta ++ (cs.string.encode g.mDescription ++
            (cs.image.encode g.mImage ++ cs.bool.encode g.mAutoDownload))) ++ after,
          mOffset := before.length, mOk := true } =
      ({ mData := before ++ (cs.groupMeta.encode g.mMeta ++ (cs.string.encode g.mDescription ++
            (cs.image.encode g.mImage ++ cs.bool.encode g.mAutoDownload))) ++ after,
         mOffset := before.length + (cs.groupMeta.encode g.mMeta ++
            (cs.string.encode g.mDescription ++
              (cs.image.encode g.mImage ++ cs.bool.encode g.mAutoDownload))).length,
         mOk := true }, g) := by
  obtain ⟨h1, _, h3, h4, h5, _, _, _, _⟩ := h
  simp only [RsGxsChannelGroup.serial_process, MemberCodecs.serializer]
  rw [MemberCodec.process_deserialize cs.groupMeta _ h1 _ _ before
    (cs.string.encode g.mDescription ++ (cs.image.encode g.mImage ++
      cs.bool.encode g.mAutoDownload) ++ after) g.mMeta into.mMeta "mMeta" trivial
    (by simp [List.append_assoc]) rfl]
  simp only []
  rw [MemberCodec.process_deserialize cs.string _ h3 _ _ (before ++ cs.groupMeta.encode g.mMeta)
    (cs.image.encode g.mImage ++ cs.bool.encode g.mAutoDownload ++ after) g.mDescription
    into.mDescription "mDescription" trivial (by simp [List.append_assoc])
    (by simp [Nat.add_assoc])]
  simp only []
  rw [MemberCodec.process_deserialize cs.image _ h4 _ _
    (before ++ cs.groupMeta.encode g.mMeta ++ cs.string.encode g.mDescription)
    (cs.bool.encode g.mAutoDownload ++ after) g.mImage into.mImage "mImage" trivial
    (by simp [List.append_assoc]) (by simp [Nat.add_assoc])]
  simp only []
  rw [MemberCodec.process_deserialize cs.bool _ h5 _ _
    (before ++ cs.groupMeta.encode g.mMeta ++ cs.string.encode g.mDescription ++
      cs.image.encode g.mImage)
    after g.mAutoDownload into.mAutoDownload "mAutoDownload" trivial
    (by simp [List.append_assoc]) (by simp [Nat.add_assoc])]
  simp [Nat.add_assoc]

/-- Serialising a post into a sound context appends the bytes of its seven
members, in order, and leaves the post as it is. -/
theorem RsGxsChannelPost.post_serialize_appends (cs : MemberCodecs) (ctx : SerializeContext)
    (p : RsGxsChannelPost) (hok : ctx.mOk = true) :
    p.serial_process cs.serializer SerializeJob.SERIALIZE ctx =
      ({ mData := ctx.mData ++ p.wire cs, mOffset := ctx.mOffset + (p.wire cs).length,
         mOk := true }, p) := by
  simp only [RsGxsChannelPost.serial_process, MemberCodecs.serializer, RsGxsChannelPost.wire]
  rw [MemberCodec.process_serialize _ _ _ _ hok]
  rw [MemberCodec.process_serialize _ _ _ _ rfl]
  rw [MemberCodec.process_serialize _ _ _ _ rfl]
  rw [MemberCodec.process_serialize _ _ _ _ rfl]
  rw [MemberCodec.process_serialize _ _ _ _ rfl]
  rw [MemberCodec.process_serialize _ _ _ _ rfl]
  rw [MemberCodec.process_serialize _ _ _ _ rfl]
  simp [List.append_assoc, Nat.add_assoc]

/-- Deserialising a post at the place of a buffer where a post `p` with
aggregates in the range of their types was written reads `p` back, whatever
record is deserialised into, and moves the offset past the bytes of `p`. -/
theorem RsGxsChannelPost.post_deserialize_reads (cs : MemberCodecs) (h : cs.roundTrips)
    (before after : List Nat) (p into : RsGxsChannelPost)
    (hcount : p.mCount < UINT32_RANGE) (hsize : p.mSize < UINT64_RANGE) :
    into.serial_process cs.serializer SerializeJob.DESERIALIZE
        { mData := before ++ p.wire cs ++ after, mOffset := before.length, mOk := true } =
      ({ mData := before ++ p.wire cs ++ after,
         mOffset := before.length + (p.wire cs).length, mOk := true }, p) := by
  obtain ⟨_, h2, h3, h4, _, h6, h7, h8, h9⟩ := h
  simp only [RsGxsChannelPost.serial_process, MemberCodecs.serializer, RsGxsChannelPost.wire]
  rw [MemberCodec.process_deserialize cs.msgMeta _ h2 _ _ before
    (cs.msgIdSet.encode p.mOlderVersions ++ (cs.string.encode p.mMsg ++
      (cs.fileList.encode p.mFiles ++ (cs.uint32.encode p.mCount ++
        (cs.uint64.encode p.mSize ++ cs.image.encode p.mThumbnail)))) ++ after)
    p.mMeta into.mMeta "mMeta" trivial (by simp [List.append_assoc]) rfl]
  simp only []
  rw [MemberCodec.process_deserialize cs.msgIdSet _ h6 _ _ (before ++ cs.msgMeta.encode p.mMeta)
    (cs.string.encode p.mMsg ++ (cs.fileList.encode p.mFiles ++ (cs.uint32.encode p.mCount ++
      (cs.uint64.encode p.mSize ++ cs.image.encode p.mThumbnail))) ++ after)
    p.mOlderVersions into.mOlderVersions "mOlderVersions" trivial
    (by simp [List.append_assoc]) (by simp [Nat.add_assoc])]
  simp only []
  rw [MemberCodec.process_deserialize cs.string _ h3 _ _
    (before ++ cs.msgMeta.encode p.mMeta ++ cs.msgIdSet.encode p.mOlderVersions)
    (cs.fileList.encode p.mFiles ++ (cs.uint32.encode p.mCount ++
      (cs.uint64.encode p.mSize ++ cs.image.encode p.mThumbnail)) ++ after)
    p.mMsg into.mMsg "mMsg" trivial
    (by simp [List.append_assoc]) (by simp [Nat.add_assoc])]
  simp only []
  rw [MemberCodec.process_deserialize cs.fileList _ h7 _ _
    (before ++ cs.msgMeta.encode p.mMeta ++ cs.msgIdSet.encode p.mOlderVersions ++
      cs.string.encode p.mMsg)
    (cs.uint32.encode p.mCount ++ (cs.uint64.encode p.mSize ++
      cs.image.encode p.mThumbnail) ++ after)
    p.mFiles into.mFiles "mFiles" trivial
    (by simp [List.append_assoc]) (by simp [Nat.add_assoc])]
  simp only []
  rw [MemberCodec.process_deserialize cs.uint32 _ h8 _ _
    (before ++ cs.msgMeta.encode p.mMeta ++ cs.msgIdSet.encode p.mOlderVersions ++
      cs.string.encode p.mMsg ++ cs.fileList.encode p.mFiles)
    (cs.uint64.encode p.mSize ++ cs.image.encode p.mThumbnail ++ after)
    p.mCount into.mCount "mCount" hcount
    (by simp [List.append_assoc]) (by simp [Nat.add_assoc])]
  simp only []
  rw [MemberCodec.process_deserialize cs.uint64 _ h9 _ _
    (before ++ cs.msgMeta.encode p.mMeta ++ cs.msgIdSet.encode p.mOlderVersions ++
      cs.string.encode p.mMsg ++ cs.fileList.encode p.mFiles ++ cs.uint32.encode p.mCount)
    (cs.image.encode p.mThumbnail ++ after)
    p.mSize into.mSize "mSize" hsize
    (by simp [List.append_assoc]) (by simp [Nat.add_assoc])]
  simp only []
  rw [MemberCodec.process_deserialize cs.image _ h4 _ _
    (before ++ cs.msgMeta.encode p.mMeta ++ cs.msgIdSet.encode p.mOlderVersions ++
      cs.string.encode p.mMsg ++ cs.fileList.encode p.mFiles ++ cs.uint32.encode p.mCount ++
      cs.uint64.encode p.mSize)
    after p.mThumbnail into.mThumbnail "mThumbnail" trivial
    (by simp [List.append_assoc]) (by simp [Nat.add_assoc])]
  simp [Nat.add_assoc]

/-- C12: provided each member level serialiser round-trips (the two integer
formats on the range of their C++ type), for every group `g` and every post `p`
(with `mCount` a `uint32_t` and `mSize` a `uint64_t` value), running
`serial_process` as a `SERIALIZE` job on an empty context leaves the record
unchanged, and running it as a `DESERIALIZE` job on the produced data, into any
record, yields a record equal to `g` (resp. `p`), without failure and with the
whole buffer consumed; both jobs visit the same members, with the same member
types, in the same order. -/
theorem serial_process_round_trip (cs : MemberCodecs) (h : cs.roundTrips)
    (g intoGroup : RsGxsChannelGroup) (p intoPost : RsGxsChannelPost)
    (hcount : p.mCount < UINT32_RANGE) (hsize : p.mSize < UINT64_RANGE) :
    ((g.serial_process cs.serializer SerializeJob.SERIALIZE {}).2 = g ∧
      (intoGroup.serial_process cs.serializer SerializeJob.DESERIALIZE
          (g.serial_process cs.serializer SerializeJob.SERIALIZE {}).1.forReading).2 = g ∧
      (intoGroup.serial_process cs.serializer SerializeJob.DESERIALIZE
          (g.serial_process cs.serializer SerializeJob.SERIALIZE {}).1.forReading).1 =
        (g.serial_process cs.serializer SerializeJob.SERIALIZE {}).1 ∧
      (g.serial_process cs.serializer SerializeJob.SERIALIZE {}).1.mOk = true ∧
      (g.serial_process cs.serializer SerializeJob.SERIALIZE {}).1.mOffset =
        (g.serial_process cs.serializer SerializeJob.SERIALIZE {}).1.mData.length ∧
      visitedMembers (g.serial_process cs.serializer.traced SerializeJob.SERIALIZE
          ({}, [])).1.2 =
        visitedMembers (intoGroup.serial_process cs.serializer.traced SerializeJob.DESERIALIZE
          ((g.serial_process cs.serializer SerializeJob.SERIALIZE {}).1.forReading, [])).1.2) ∧
    ((p.serial_process cs.serializer SerializeJob.SERIALIZE {}).2 = p ∧
      (intoPost.serial_process cs.serializer SerializeJob.DESERIALIZE
          (p.serial_process cs.serializer SerializeJob.SERIALIZE {}).1.forReading).2 = p ∧
      (intoPost.serial_process cs.serializer SerializeJob.DESERIALIZE
          (p.serial_process cs.serializer SerializeJob.SERIALIZE {}).1.forReading).1 =
        (p.serial_process cs.serializer SerializeJob.SERIALIZE {}).1 ∧
      (p.serial_process cs.serializer SerializeJob.SERIALIZE {}).1.mOk = true ∧
      (p.serial_process cs.serializer SerializeJob.SERIALIZE {}).1.mOffset =
        (p.serial_process cs.serializer SerializeJob.SERIALIZE {}).1.mData.length ∧
      visitedMembers (p.serial_process cs.serializer.traced SerializeJob.SERIALIZE
          ({}, [])).1.2 =
        visitedMembers (intoPost.serial_process cs.serializer.traced SerializeJob.DESERIALIZE
          ((p.serial_process cs.serializer SerializeJob.SERIALIZE {}).1.forReading, [])).1.2) := by
  have hg := RsGxsChannelGroup.group_serialize_appends cs {} g rfl
  have hgr := RsGxsChannelGroup.group_deserialize_reads cs h [] [] g intoGroup
  have hp := RsGxsChannelPost.post_serialize_appends cs {} p rfl
  have hpr := RsGxsChannelPost.post_deserialize_reads cs h [] [] p intoPost hcount hsize
  simp only [List.nil_append, List.append_nil, List.length_nil, Nat.zero_add] at hg hgr hp hpr
  refine ⟨⟨?_, ?_, ?_, ?_, ?_, ?_⟩, ⟨?_, ?_, ?_, ?_, ?_, ?_⟩⟩
  · rw [hg]
  · rw [hg]; simp only [SerializeContext.forReading]; rw [hgr]
  · rw [hg]; simp only [SerializeContext.forReading]; rw [hgr]
  · rw [hg]
  · rw [hg]
  · simp [visitedMembers, RsGxsChannelGroup.serial_process, RsTypeSerializer.traced]
  · rw [hp]
  · rw [hp]; simp only [SerializeContext.forReading]; rw [hpr]
  · rw [hp]; simp only [SerializeContext.forReading]; rw [hpr]
  · rw [hp]
  · rw [hp]
  · simp [visitedMembers, RsGxsChannelPost.serial_process, RsTypeSerializer.traced]

/-- C12, witness: the sample wire formats round-trip, and the sample channel and
the sample post are read back from what was written for them. -/
theorem serial_process_round_trip_witness :
    sampleCodecs.roundTrips ∧ samplePost.mCount < UINT32_RANGE ∧
      samplePost.mSize < UINT64_RANGE ∧
      ({} : RsGxsChannelGroup).serial_process sampleCodecs.serializer SerializeJob.DESERIALIZE
          (sampleChannel.serial_process sampleCodecs.serializer
            SerializeJob.SERIALIZE {}).1.forReading
        = ((sampleChannel.serial_process sampleCodecs.serializer SerializeJob.SERIALIZE {}).1,
            sampleChannel) ∧
      ({} : RsGxsChannelPost).serial_process sampleCodecs.serializer SerializeJob.DESERIALIZE
          (samplePost.serial_process sampleCodecs.serializer
            SerializeJob.SERIALIZE {}).1.forReading
        = ((samplePost.serial_process sampleCodecs.serializer SerializeJob.SERIALIZE {}).1,
            samplePost) :=
  have hc : samplePost.mCount < UINT32_RANGE := by decide
  have hs : samplePost.mSize < UINT64_RANGE := by decide
  have h := serial_process_round_trip sampleCodecs sampleCodecs_roundTrips sampleChannel {}
    samplePost {} hc hs
  ⟨sampleCodecs_roundTrips, hc, hs, Prod.ext h.1.2.2.1 h.1.2.1, Prod.ext h.2.2.2.1 h.2.2.1⟩

/-! ## Default arguments of `createChannelV2` -/

/-- C11: the defaults the header declares for `createChannelV2` are
`circleType = RsGxsCircleType::PUBLIC`, `circleId = RsGxsCircleId()` (the empty
circle id) and `authorId = RsGxsId()` (the empty identity); this argument set
satisfies the circle rule (`PUBLIC` with an empty circle id) whatever the
collaborators, so a call giving only name and description is never rejected by
that rule: it succeeds exactly when the name is not empty and the derived group
id is not in use, and then stores a public, anonymous channel with that name. -/
theorem createChannelV2_defaults_public_anonymous (col : Collaborators) (s : ContentStore)
    (name description : String) :
    createChannelV2.declaredDefaults =
        [("name", none), ("description", none), ("thumbnail", some "RsGxsImage()"),
         ("authorId", some "RsGxsId()"), ("circleType", some "RsGxsCircleType::PUBLIC"),
         ("circleId", some "RsGxsCircleId()"),
         ("channelId", some "RS_DEFAULT_STORAGE_PARAM(RsGxsGroupId)"),
         ("errorMessage", some "RS_DEFAULT_STORAGE_PARAM(std::string)")] ∧
      createChannelV2.defaultCircleType = RsGxsCircleType.PUBLIC ∧
      createChannelV2.defaultCircleId = 0 ∧
      createChannelV2.defaultAuthorId = 0 ∧
      circleRule col createChannelV2.defaultCircleType createChannelV2.defaultCircleId = true ∧
      ((createChannelV2.withDefaults col s name description).success = true ↔
        (name ≠ "" ∧
          s.findChannel (stampChannel col
            { mMeta := { mGroupName := name }, mDescription := description }).mMeta.mGroupId
            = none)) ∧
      ((createChannelV2.withDefaults col s name description).success = true →
        ∃ e ∈ (createChannelV2.withDefaults col s name description).store.channels,
          some e.group.mMeta.mGroupId =
            (createChannelV2.withDefaults col s name description).newId ∧
          e.group.mMeta.mGroupName = name ∧
          e.group.mMeta.mCircleType = RsGxsCircleType.PUBLIC ∧
          e.group.mMeta.mCircleId = 0 ∧
          e.group.mMeta.mAuthorId = 0) := by
  have hrule : circleRule col RsGxsCircleType.PUBLIC 0 = true := by simp [circleRule]
  refine ⟨by decide, rfl, rfl, rfl, hrule, ?_, ?_⟩
  · simp only [createChannelV2.withDefaults, createChannelV2, createChannel,
      createChannelV2.defaultThumbnail, createChannelV2.defaultAuthorId,
      createChannelV2.defaultCircleType, createChannelV2.defaultCircleId]
    constructor
    · intro hs
      split at hs
      · simp [CreateResult.rejected] at hs
      · rename_i hf
        have hv := createChannel_valid_of_accepted col s _ hf
        exact ⟨hv.1, hv.2.2⟩
    · rintro ⟨hname, hfresh⟩
      have hf : createChannel.failure col s
          { mMeta := { mGroupName := name, mAuthorId := 0,
                       mCircleType := RsGxsCircleType.PUBLIC, mCircleId := 0 },
            mDescription := description, mImage := {} } = none := by
        have hfresh' : (s.findChannel (stampChannel col
            { mMeta := { mGroupName := name, mAuthorId := 0,
                         mCircleType := RsGxsCircleType.PUBLIC, mCircleId := 0 },
              mDescription := description, mImage := {} }).mMeta.mGroupId).isSome = false := by
          rw [show s.findChannel (stampChannel col
            { mMeta := { mGroupName := name, mAuthorId := 0,
                         mCircleType := RsGxsCircleType.PUBLIC, mCircleId := 0 },
              mDescription := description, mImage := {} }).mMeta.mGroupId = none from hfresh]
          rfl
        simp [createChannel.failure, hname, hrule, hfresh']
      simp [hf, CreateResult.committed]
  · intro hs
    simp only [createChannelV2.withDefaults, createChannelV2, createChannel,
      createChannelV2.defaultThumbnail, createChannelV2.defaultAuthorId,
      createChannelV2.defaultCircleType, createChannelV2.defaultCircleId] at hs ⊢
    split at hs
    · simp [CreateResult.rejected] at hs
    · rename_i hf
      simp only [hf, CreateResult.committed]
      refine ⟨_, List.mem_append_right _ (List.mem_singleton.mpr rfl), rfl, rfl, rfl, rfl, rfl⟩

/-- C11, witness: in the empty store `createChannelV2("Tech", "...")` succeeds
and stores a public channel without circle and without author. -/
theorem createChannelV2_defaults_public_anonymous_witness :
    (createChannelV2.withDefaults sampleCollaborators {} "Tech" "...").success = true ∧
      ∃ e ∈ (createChannelV2.withDefaults sampleCollaborators {} "Tech" "...").store.channels,
        some e.group.mMeta.mGroupId =
          (createChannelV2.withDefaults sampleCollaborators {} "Tech" "...").newId ∧
        e.group.mMeta.mGroupName = "Tech" ∧
        e.group.mMeta.mCircleType = RsGxsCircleType.PUBLIC ∧
        e.group.mMeta.mCircleId = 0 ∧
        e.group.mMeta.mAuthorId = 0 :=
  ⟨by decide,
   (createChannelV2_defaults_public_anonymous sampleCollaborators {} "Tech" "...").2.2.2.2.2.2
     (by decide)⟩

end RetroShare
